import Mathlib

/-!
Shallow embedding of the CHIP-8 emulator core (src/emulator/chip8.c, with the
pieces of main.c and of the legacy single-file variant src/chip8.c that the
claims reference), together with proofs settling the frozen claims.

Modelling conventions:
  * machine integers become `Nat`; a store into a `uint8_t` location is
    truncated with `% 256`, into a `uint16_t` location with `% 65536`,
    mirroring C's implicit conversion on assignment;
  * byte arrays (`memory`, `display`, `V`) and the `uint16_t` stack become
    total functions `Nat → Nat` updated pointwise (an out-of-bounds C write,
    which is undefined behaviour, is modelled as a write at the raw index);
  * the `enum chip8_key` sentinel `C8K_NONE = -1` becomes `Option Nat` with
    `none` for `C8K_NONE`;
  * `rand()` is modelled by an oracle field `rand_val` holding the next value
    the generator would return (its evolution is irrelevant to the claims);
  * SDL rendering, timing and the debug printout are not part of the machine
    state and are omitted.
-/

def MEM_SIZE : Nat := 4096
def RESERVED_MEM : Nat := 512
def DISP_W : Nat := 64
def DISP_H : Nat := 32
def DISP_SIZE : Nat := DISP_W * DISP_H
def STACK_SIZE : Nat := 16

/-- Pointwise update of a `Nat`-indexed store. -/
def upd (f : Nat → Nat) (i v : Nat) : Nat → Nat :=
  fun j => if j = i then v else f j

/-- Chip8 font. Digits 0-F, 5 bytes each (`chip8_fontset` in the source). -/
def chip8_fontset : List Nat :=
  [0xF0, 0x90, 0x90, 0x90, 0xF0, 0x20, 0x60, 0x20, 0x20, 0x70,
   0xF0, 0x10, 0xF0, 0x80, 0xF0, 0xF0, 0x10, 0xF0, 0x10, 0xF0,
   0x90, 0x90, 0xF0, 0x10, 0x10, 0xF0, 0x80, 0xF0, 0x10, 0xF0,
   0xF0, 0x80, 0xF0, 0x90, 0xF0, 0xF0, 0x10, 0x20, 0x40, 0x40,
   0xF0, 0x90, 0xF0, 0x90, 0xF0, 0xF0, 0x90, 0xF0, 0x10, 0xF0,
   0xF0, 0x90, 0xF0, 0x90, 0x90, 0xE0, 0x90, 0xE0, 0x90, 0xE0,
   0xF0, 0x80, 0x80, 0x80, 0xF0, 0xE0, 0x90, 0x90, 0x90, 0xE0,
   0xF0, 0x80, 0xF0, 0x80, 0xF0, 0xF0, 0x80, 0xF0, 0x80, 0x80]

/-- `struct chip8`: the machine state (chip8.h). -/
structure Chip8 where
  memory : Nat → Nat
  display : Nat → Nat
  V : Nat → Nat
  SP : Nat
  DT : Nat
  ST : Nat
  PC : Nat
  I : Nat
  stack : Nat → Nat

/-- `enum eml_stat`: emulator status after a cycle (chip8.h). -/
inductive EmlStat where
  | EML_OK
  | EML_REDRAW
  | EML_BRK_REACHED
  | EML_UNK_OPC
  | EML_STACK_OVERFL
  | EML_STACK_UNDERFL
  | EML_PC_OVERFL
deriving DecidableEq, Repr

export EmlStat (EML_OK EML_REDRAW EML_BRK_REACHED EML_UNK_OPC EML_STACK_OVERFL
  EML_STACK_UNDERFL EML_PC_OVERFL)

/-- `struct emulator` (chip8.h); rendering/CLI fields are omitted and
`rand_val` is the oracle for `rand()`. -/
structure Emulator where
  cpu : Chip8
  opcode : Nat
  prev_PC : Nat
  keypad : Nat
  last_key : Option Nat
  brk_point : Nat
  key_waiting : Bool
  brk_point_set : Bool
  rand_val : Nat

/-- Test if a key is pressed (`keypad_is_pressed`). -/
def keypad_is_pressed (eml : Emulator) (key : Nat) : Bool :=
  eml.keypad &&& (1 <<< key) ≠ 0

/-- Extract the x nibble from an opcode (`op_x`). -/
def op_x (opcode : Nat) : Nat := (opcode >>> 8) &&& 0xF

/-- Extract the y nibble from an opcode (`op_y`). -/
def op_y (opcode : Nat) : Nat := (opcode >>> 4) &&& 0xF

/-- Extract the kk byte from an opcode (`op_kk`). -/
def op_kk (opcode : Nat) : Nat := opcode &&& 0xFF

/-- Extract the nnn 12-bit number from an opcode (`op_nnn`). -/
def op_nnn (opcode : Nat) : Nat := opcode &&& 0xFFF

/-- 00E0 - CLS: Clear the display. -/
def instr_CLS (_opcode : Nat) (eml : Emulator) : EmlStat × Emulator :=
  (EML_REDRAW, { eml with cpu := { eml.cpu with display := fun _ => 0 } })

/-- 00EE - RET: Return from a subroutine. -/
def instr_RET (_opcode : Nat) (eml : Emulator) : EmlStat × Emulator :=
  if eml.cpu.SP = 0 then
    (EML_STACK_UNDERFL, eml)
  else
    (EML_OK, { eml with cpu := { eml.cpu with
      PC := eml.cpu.stack (eml.cpu.SP - 1) % 65536,
      SP := (eml.cpu.SP - 1) % 256 } })

/-- 1nnn - JP addr: Jump to location nnn. -/
def instr_JP_nnn (opcode : Nat) (eml : Emulator) : EmlStat × Emulator :=
  (EML_OK, { eml with cpu := { eml.cpu with PC := op_nnn opcode } })

/-- 2nnn - CALL addr: Call subroutine at nnn. -/
def instr_CALL_nnn (opcode : Nat) (eml : Emulator) : EmlStat × Emulator :=
  if eml.cpu.SP = STACK_SIZE then
    (EML_STACK_OVERFL, eml)
  else
    (EML_OK, { eml with cpu := { eml.cpu with
      stack := upd eml.cpu.stack eml.cpu.SP (eml.cpu.PC % 65536),
      SP := (eml.cpu.SP + 1) % 256,
      PC := op_nnn opcode } })

/-- 3xkk - SE Vx, byte: Skip next instruction if Vx = kk. -/
def instr_SE_Vx_kk (opcode : Nat) (eml : Emulator) : EmlStat × Emulator :=
  (EML_OK, if eml.cpu.V (op_x opcode) = op_kk opcode then
    { eml with cpu := { eml.cpu with PC := (eml.cpu.PC + 2) % 65536 } }
  else eml)

/-- 4xkk - SNE Vx, byte: Skip next instruction if Vx != kk. -/
def instr_SNE_Vx_kk (opcode : Nat) (eml : Emulator) : EmlStat × Emulator :=
  (EML_OK, if eml.cpu.V (op_x opcode) ≠ op_kk opcode then
    { eml with cpu := { eml.cpu with PC := (eml.cpu.PC + 2) % 65536 } }
  else eml)

/-- 5xy0 - SE Vx, Vy: Skip next instruction if Vx = Vy. -/
def instr_SE_Vx_Vy (opcode : Nat) (eml : Emulator) : EmlStat × Emulator :=
  (EML_OK, if eml.cpu.V (op_x opcode) = eml.cpu.V (op_y opcode) then
    { eml with cpu := { eml.cpu with PC := (eml.cpu.PC + 2) % 65536 } }
  else eml)

/-- 6xkk - LD Vx, byte: Set Vx = kk. -/
def instr_LD_Vx_kk (opcode : Nat) (eml : Emulator) : EmlStat × Emulator :=
  (EML_OK, { eml with cpu := { eml.cpu with
    V := upd eml.cpu.V (op_x opcode) (op_kk opcode % 256) } })

/-- 7xkk - ADD Vx, byte: Set Vx = Vx + kk (uint8 wraparound). -/
def instr_ADD_Vx_kk (opcode : Nat) (eml : Emulator) : EmlStat × Emulator :=
  (EML_OK, { eml with cpu := { eml.cpu with
    V := upd eml.cpu.V (op_x opcode)
      ((eml.cpu.V (op_x opcode) + op_kk opcode) % 256) } })

/-- 8xy0 - LD Vx, Vy: Set Vx = Vy. -/
def instr_LD_Vx_Vy (opcode : Nat) (eml : Emulator) : EmlStat × Emulator :=
  (EML_OK, { eml with cpu := { eml.cpu with
    V := upd eml.cpu.V (op_x opcode) (eml.cpu.V (op_y opcode) % 256) } })

/-- 8xy1 - OR Vx, Vy: Set Vx = Vx OR Vy. -/
def instr_OR_Vx_Vy (opcode : Nat) (eml : Emulator) : EmlStat × Emulator :=
  (EML_OK, { eml with cpu := { eml.cpu with
    V := upd eml.cpu.V (op_x opcode)
      ((eml.cpu.V (op_x opcode) ||| eml.cpu.V (op_y opcode)) % 256) } })

/-- 8xy2 - AND Vx, Vy: Set Vx = Vx AND Vy. -/
def instr_AND_Vx_Vy (opcode : Nat) (eml : Emulator) : EmlStat × Emulator :=
  (EML_OK, { eml with cpu := { eml.cpu with
    V := upd eml.cpu.V (op_x opcode)
      ((eml.cpu.V (op_x opcode) &&& eml.cpu.V (op_y opcode)) % 256) } })

/-- 8xy3 - XOR Vx, Vy: Set Vx = Vx XOR Vy. -/
def instr_XOR_Vx_Vy (opcode : Nat) (eml : Emulator) : EmlStat × Emulator :=
  (EML_OK, { eml with cpu := { eml.cpu with
    V := upd eml.cpu.V (op_x opcode)
      ((eml.cpu.V (op_x opcode) ^^^ eml.cpu.V (op_y opcode)) % 256) } })

/-- 8xy4 - ADD Vx, Vy: Set Vx = Vx + Vy, set V[0xF] = carry.
The 16-bit sum `s` is computed before V[0xF] is written; the store into Vx
reads nothing, so only a destination x = 0xF is clobbered by the result. -/
def instr_ADD_Vx_Vy (opcode : Nat) (eml : Emulator) : EmlStat × Emulator :=
  let s := (eml.cpu.V (op_x opcode) + eml.cpu.V (op_y opcode)) % 65536
  let V1 := upd eml.cpu.V 0xF (if s > 0xFF then 1 else 0)
  (EML_OK, { eml with cpu := { eml.cpu with
    V := upd V1 (op_x opcode) (s &&& 0xFF) } })

/-- 8xy5 - SUB Vx, Vy: Set Vx = Vx - Vy, set V[0xF] = NOT borrow.
Faithful to the source's statement order: V[0xF] is assigned first, and the
subtraction `V[x] -= V[y]` then reads the *updated* register file (relevant
when x or y is 0xF).  uint8 subtraction wraps mod 256. -/
def instr_SUB_Vx_Vy (opcode : Nat) (eml : Emulator) : EmlStat × Emulator :=
  let V1 := upd eml.cpu.V 0xF
    (if eml.cpu.V (op_x opcode) > eml.cpu.V (op_y opcode) then 1 else 0)
  (EML_OK, { eml with cpu := { eml.cpu with
    V := upd V1 (op_x opcode)
      ((V1 (op_x opcode) + 256 - V1 (op_y opcode) % 256) % 256) } })

/-- 8xy6 - SHR Vx {, Vy}: Set Vx = Vx SHR 1.  V[0xF] is written first; the
shift then reads the updated register file. -/
def instr_SHR_Vx__Vy (opcode : Nat) (eml : Emulator) : EmlStat × Emulator :=
  let V1 := upd eml.cpu.V 0xF (eml.cpu.V (op_x opcode) &&& 0x01)
  (EML_OK, { eml with cpu := { eml.cpu with
    V := upd V1 (op_x opcode) (V1 (op_x opcode) >>> 1) } })

/-- 8xy7 - SUBN Vx, Vy: Set Vx = Vy - Vx, set V[0xF] = NOT borrow.  V[0xF] is
written first; the subtraction then reads the updated register file. -/
def instr_SUBN_Vx_Vy (opcode : Nat) (eml : Emulator) : EmlStat × Emulator :=
  let V1 := upd eml.cpu.V 0xF
    (if eml.cpu.V (op_x opcode) < eml.cpu.V (op_y opcode) then 1 else 0)
  (EML_OK, { eml with cpu := { eml.cpu with
    V := upd V1 (op_x opcode)
      ((V1 (op_y opcode) + 256 - V1 (op_x opcode) % 256) % 256) } })

/-- 8xyE - SHL Vx {, Vy}: Set Vx = Vx SHL 1 (uint8 truncation).  V[0xF] is
written first; the shift then reads the updated register file. -/
def instr_SHL_Vx_Vy (opcode : Nat) (eml : Emulator) : EmlStat × Emulator :=
  let V1 := upd eml.cpu.V 0xF ((eml.cpu.V (op_x opcode) &&& 0x80) >>> 7)
  (EML_OK, { eml with cpu := { eml.cpu with
    V := upd V1 (op_x opcode) ((V1 (op_x opcode) <<< 1) % 256) } })

/-- 9xy0 - SNE Vx, Vy: Skip next instruction if Vx != Vy. -/
def instr_SNE_Vx_Vy (opcode : Nat) (eml : Emulator) : EmlStat × Emulator :=
  (EML_OK, if eml.cpu.V (op_x opcode) ≠ eml.cpu.V (op_y opcode) then
    { eml with cpu := { eml.cpu with PC := (eml.cpu.PC + 2) % 65536 } }
  else eml)

/-- Annn - LD I, addr: Set I = nnn. -/
def instr_LD_I_nnn (opcode : Nat) (eml : Emulator) : EmlStat × Emulator :=
  (EML_OK, { eml with cpu := { eml.cpu with I := op_nnn opcode } })

/-- Bnnn - JP V0, addr: Jump to location nnn + V0. -/
def instr_JP_V0_nnn (opcode : Nat) (eml : Emulator) : EmlStat × Emulator :=
  (EML_OK, { eml with cpu := { eml.cpu with
    PC := (op_nnn opcode + eml.cpu.V 0) % 65536 } })

/-- Cxkk - RND Vx, byte: Set Vx = random byte AND kk (`rand()` modelled by the
oracle field `rand_val`). -/
def instr_RND_Vx_kk (opcode : Nat) (eml : Emulator) : EmlStat × Emulator :=
  (EML_OK, { eml with cpu := { eml.cpu with
    V := upd eml.cpu.V (op_x opcode) ((eml.rand_val &&& op_kk opcode) % 256) } })

/-- The (display cell, sprite bit) pairs visited by the Dxyn draw loops, in
loop order: outer row index i < n, inner bit index j < 8.  The cell index and
sprite bit are exactly the source's
`d_idx = ((i + y) % DISP_H)*DISP_W + (x + j) % DISP_W` and
`sprt_bit = (memory[I + i] >> (7 - j)) & 0x1`; neither reads the display, so
they are precomputed here. -/
def drawList (mem : Nat → Nat) (I n x y : Nat) : List (Nat × Nat) :=
  (List.product (List.range n) (List.range 8)).map (fun ij =>
    (((ij.1 + y) % DISP_H) * DISP_W + (x + ij.2) % DISP_W,
     (mem (I + ij.1) >>> (7 - ij.2)) &&& 0x1))

/-- One iteration of the Dxyn draw loop body on (display, collide). -/
def drawStep (acc : (Nat → Nat) × Nat) (cb : Nat × Nat) : (Nat → Nat) × Nat :=
  (upd acc.1 cb.1 (acc.1 cb.1 ^^^ cb.2),
   if acc.1 cb.1 = 1 ∧ cb.2 = 1 then 1 else acc.2)

/-- The Dxyn draw loops as a fold over the visited pixels. -/
def drawApply (l : List (Nat × Nat)) (acc : (Nat → Nat) × Nat) :
    (Nat → Nat) × Nat :=
  l.foldl drawStep acc

/-- The accumulated XOR that a draw pass applies to one display cell: the
XOR of the sprite bits of all visited pixels mapping to that cell. -/
def xorMask : List (Nat × Nat) → Nat → Nat
  | [], _ => 0
  | cb :: t, idx => (if cb.1 = idx then cb.2 else 0) ^^^ xorMask t idx

/-- Dxyn - DRW Vx, Vy, nibble: Display n-byte sprite starting at memory
location I at (Vx, Vy), set V[0xF] = collision. -/
def instr_DRW_Vx_Vy_n (opcode : Nat) (eml : Emulator) : EmlStat × Emulator :=
  let n := opcode &&& 0xF
  let x := eml.cpu.V (op_x opcode)
  let y := eml.cpu.V (op_y opcode)
  let r := drawApply (drawList eml.cpu.memory eml.cpu.I n x y) (eml.cpu.display, 0)
  (EML_REDRAW, { eml with cpu := { eml.cpu with
    display := r.1, V := upd eml.cpu.V 0xF (r.2 % 256) } })

/-- Ex9E - SKP Vx: Skip next instruction if key with the value of Vx is
pressed. -/
def instr_SKP_Vx (opcode : Nat) (eml : Emulator) : EmlStat × Emulator :=
  (EML_OK, if keypad_is_pressed eml (eml.cpu.V (op_x opcode)) then
    { eml with cpu := { eml.cpu with PC := (eml.cpu.PC + 2) % 65536 } }
  else eml)

/-- ExA1 - SKNP Vx: Skip next instruction if key with the value of Vx is not
pressed. -/
def instr_SKNP_Vx (opcode : Nat) (eml : Emulator) : EmlStat × Emulator :=
  (EML_OK, if ¬keypad_is_pressed eml (eml.cpu.V (op_x opcode)) then
    { eml with cpu := { eml.cpu with PC := (eml.cpu.PC + 2) % 65536 } }
  else eml)

/-- Fx07 - LD Vx, DT: Set Vx = delay timer value. -/
def instr_LD_Vx_DT (opcode : Nat) (eml : Emulator) : EmlStat × Emulator :=
  (EML_OK, { eml with cpu := { eml.cpu with
    V := upd eml.cpu.V (op_x opcode) (eml.cpu.DT % 256) } })

/-- Fx0A - LD Vx, K: Wait for a key press, store the value of the key in Vx.
If no key is latched (`last_key == C8K_NONE`) the waiting flag is set and the
handler returns; note that it does not touch `PC`, which `emulator_cycle`
already advanced past this instruction. -/
def instr_LD_Vx_K (opcode : Nat) (eml : Emulator) : EmlStat × Emulator :=
  match eml.last_key with
  | none => (EML_OK, { eml with key_waiting := true })
  | some k => (EML_OK, { eml with
      cpu := { eml.cpu with V := upd eml.cpu.V (op_x opcode) (k % 256) },
      last_key := none })

/-- Fx15 - LD DT, Vx: Set delay timer = Vx. -/
def instr_LD_DT_Vx (opcode : Nat) (eml : Emulator) : EmlStat × Emulator :=
  (EML_OK, { eml with cpu := { eml.cpu with
    DT := eml.cpu.V (op_x opcode) % 256 } })

/-- Fx18 - LD ST, Vx: Set sound timer = Vx. -/
def instr_LD_ST_Vx (opcode : Nat) (eml : Emulator) : EmlStat × Emulator :=
  (EML_OK, { eml with cpu := { eml.cpu with
    ST := eml.cpu.V (op_x opcode) % 256 } })

/-- Fx1E - ADD I, Vx: Set I = I + Vx, then set V[0xF] = 1 iff the new I
exceeds 0xFFF (undocumented feature).  I is uint16 and is *not* masked to 12
bits. -/
def instr_ADD_I_Vx (opcode : Nat) (eml : Emulator) : EmlStat × Emulator :=
  let I1 := (eml.cpu.I + eml.cpu.V (op_x opcode)) % 65536
  (EML_OK, { eml with cpu := { eml.cpu with
    I := I1, V := upd eml.cpu.V 0xF (if I1 > 0xFFF then 1 else 0) } })

/-- Fx29 - LD F, Vx: Set I = location of sprite for digit Vx. -/
def instr_LD_F_Vx (opcode : Nat) (eml : Emulator) : EmlStat × Emulator :=
  (EML_OK, { eml with cpu := { eml.cpu with
    I := (eml.cpu.V (op_x opcode) * 5) % 65536 } })

/-- Fx33 - LD B, Vx: Store BCD representation of Vx in memory locations I,
I+1, and I+2.  The indices are the raw `I + k`; nothing bounds them. -/
def instr_LD_B_Vx (opcode : Nat) (eml : Emulator) : EmlStat × Emulator :=
  let vx := eml.cpu.V (op_x opcode)
  (EML_OK, { eml with cpu := { eml.cpu with
    memory := upd (upd (upd eml.cpu.memory
      eml.cpu.I (vx / 100 % 256))
      (eml.cpu.I + 1) (vx / 10 % 10))
      (eml.cpu.I + 2) (vx % 10) } })

/-- Fx55 - LD [I], Vx: Store registers V0 through Vx in memory starting at
location I.  The emulator variant leaves I unchanged. -/
def instr_LD_I_Vx_multi (opcode : Nat) (eml : Emulator) : EmlStat × Emulator :=
  (EML_OK, { eml with cpu := { eml.cpu with
    memory := (List.range (op_x opcode + 1)).foldl
      (fun m i => upd m (eml.cpu.I + i) (eml.cpu.V i % 256)) eml.cpu.memory } })

/-- Fx65 - LD Vx, [I]: Read registers V0 through Vx from memory starting at
location I.  The emulator variant leaves I unchanged. -/
def instr_LD_Vx_I_multi (opcode : Nat) (eml : Emulator) : EmlStat × Emulator :=
  (EML_OK, { eml with cpu := { eml.cpu with
    V := (List.range (op_x opcode + 1)).foldl
      (fun v i => upd v i (eml.cpu.memory (eml.cpu.I + i) % 256)) eml.cpu.V } })

/-- The F-family sub-dispatch (`case 0xF` inner switch of `emulator_cycle`).
An unassigned low byte leaves the pre-initialised `EML_UNK_OPC` status. -/
def execF (op : Nat) (eml : Emulator) : EmlStat × Emulator :=
  if op &&& 0xFF = 0x07 then instr_LD_Vx_DT op eml
  else if op &&& 0xFF = 0x0A then instr_LD_Vx_K op eml
  else if op &&& 0xFF = 0x15 then instr_LD_DT_Vx op eml
  else if op &&& 0xFF = 0x18 then instr_LD_ST_Vx op eml
  else if op &&& 0xFF = 0x1E then instr_ADD_I_Vx op eml
  else if op &&& 0xFF = 0x29 then instr_LD_F_Vx op eml
  else if op &&& 0xFF = 0x33 then instr_LD_B_Vx op eml
  else if op &&& 0xFF = 0x55 then instr_LD_I_Vx_multi op eml
  else if op &&& 0xFF = 0x65 then instr_LD_Vx_I_multi op eml
  else (EML_UNK_OPC, eml)

/-- The dispatch switch of `emulator_cycle`, as a function of the top nibble
`fam = (op & 0xF000) >> 12`.  The C switch has no `break` between its cases:
when an inner switch matches nothing, control FALLS THROUGH into the next
case label.  Accordingly: a 0-family opcode that is neither 00E0 nor 00EE
falls into `case 0x1` (JP nnn); an 8-family opcode with an unassigned low
nibble falls into `case 0x9` (SNE Vx, Vy); an E-family opcode that is
neither Ex9E nor ExA1 falls into `case 0xF` (the F-family sub-dispatch).
Only an unmatched F-family low byte reaches `endcase` with the
pre-initialised `EML_UNK_OPC` status.  (`fam` is always ≤ 0xF, so the final
catch-all is C's `case 0xF`.) -/
def execFam (fam op : Nat) (eml : Emulator) : EmlStat × Emulator :=
  match fam with
  | 0x0 =>
    if op &&& 0xFF = 0xE0 then instr_CLS op eml
    else if op &&& 0xFF = 0xEE then instr_RET op eml
    else instr_JP_nnn op eml
  | 0x1 => instr_JP_nnn op eml
  | 0x2 => instr_CALL_nnn op eml
  | 0x3 => instr_SE_Vx_kk op eml
  | 0x4 => instr_SNE_Vx_kk op eml
  | 0x5 => instr_SE_Vx_Vy op eml
  | 0x6 => instr_LD_Vx_kk op eml
  | 0x7 => instr_ADD_Vx_kk op eml
  | 0x8 =>
    if op &&& 0xF = 0x0 then instr_LD_Vx_Vy op eml
    else if op &&& 0xF = 0x1 then instr_OR_Vx_Vy op eml
    else if op &&& 0xF = 0x2 then instr_AND_Vx_Vy op eml
    else if op &&& 0xF = 0x3 then instr_XOR_Vx_Vy op eml
    else if op &&& 0xF = 0x4 then instr_ADD_Vx_Vy op eml
    else if op &&& 0xF = 0x5 then instr_SUB_Vx_Vy op eml
    else if op &&& 0xF = 0x6 then instr_SHR_Vx__Vy op eml
    else if op &&& 0xF = 0x7 then instr_SUBN_Vx_Vy op eml
    else if op &&& 0xF = 0xE then instr_SHL_Vx_Vy op eml
    else instr_SNE_Vx_Vy op eml
  | 0x9 => instr_SNE_Vx_Vy op eml
  | 0xA => instr_LD_I_nnn op eml
  | 0xB => instr_JP_V0_nnn op eml
  | 0xC => instr_RND_Vx_kk op eml
  | 0xD => instr_DRW_Vx_Vy_n op eml
  | 0xE =>
    if op &&& 0xFF = 0x9E then instr_SKP_Vx op eml
    else if op &&& 0xFF = 0xA1 then instr_SKNP_Vx op eml
    else execF op eml
  | _ => execF op eml

/-- The dispatch of `emulator_cycle` on a fetched opcode. -/
def execOpcode (op : Nat) (eml : Emulator) : EmlStat × Emulator :=
  execFam ((op &&& 0xF000) >>> 12) op eml

/-- The instruction fetch of `emulator_cycle`:
`opcode = memory[PC] << 8 | memory[PC + 1]` (both operands are uint8). -/
def fetched (eml : Emulator) : Nat :=
  (eml.cpu.memory eml.cpu.PC % 256) <<< 8 |||
  (eml.cpu.memory (eml.cpu.PC + 1) % 256)

/-- The bookkeeping `emulator_cycle` performs between fetch and dispatch:
record the fetched opcode, keep the old PC in `prev_PC`, and advance
`PC += 2` so that PC points to the next instruction during execution. -/
def preExec (eml : Emulator) : Emulator :=
  { eml with
    opcode := fetched eml,
    prev_PC := eml.cpu.PC,
    cpu := { eml.cpu with PC := (eml.cpu.PC + 2) % 65536 } }

/-- `emulator_cycle`: fetch, advance PC, dispatch, breakpoint check. -/
def emulator_cycle (eml : Emulator) : EmlStat × Emulator :=
  if eml.key_waiting then (EML_OK, eml)
  else if eml.cpu.PC + 1 ≥ MEM_SIZE then (EML_PC_OVERFL, eml)
  else
    let r := execOpcode (fetched eml) (preExec eml)
    if r.2.brk_point_set ∧ r.2.prev_PC = r.2.brk_point then
      (EML_BRK_REACHED, r.2)
    else r

/-- `emulator_init`: zeroed state, font table copied in, PC = 0x200
(`last_key = C8K_NONE`, i.e. `none`). -/
def emulator_init : Emulator :=
  { cpu := { memory := fun a => chip8_fontset.getD a 0,
             display := fun _ => 0, V := fun _ => 0,
             SP := 0, DT := 0, ST := 0, PC := 0x200, I := 0,
             stack := fun _ => 0 },
    opcode := 0, prev_PC := 0, keypad := 0, last_key := none,
    brk_point := 0, key_waiting := false, brk_point_set := false,
    rand_val := 0 }

/-- `emulator_load_program`: copy the program image to memory starting at
`RESERVED_MEM` (bytes truncated to uint8). -/
def emulator_load_program (eml : Emulator) (prog : List Nat) : Emulator :=
  { eml with cpu := { eml.cpu with
    memory := fun a =>
      if RESERVED_MEM ≤ a ∧ a < RESERVED_MEM + prog.length then
        prog.getD (a - RESERVED_MEM) 0 % 256
      else eml.cpu.memory a } }

/-- `keypad_pressed` (main.c): mark key k held; if the emulator is waiting
for a key, latch it into `last_key` and clear the waiting flag. -/
def keypad_pressed (eml : Emulator) (k : Nat) : Emulator :=
  let e := { eml with keypad := (eml.keypad ||| (1 <<< k)) % 65536 }
  if e.key_waiting then { e with last_key := some k, key_waiting := false }
  else e

/-- Iterated `emulator_cycle` (the state component). -/
def cycleN : Nat → Emulator → Emulator
  | 0, e => e
  | k + 1, e => cycleN k (emulator_cycle e).2

/-- Legacy single-file variant (src/chip8.c), `_bF` case 0x55: store V0..Vx
at memory[I..], then `I += op_x(opcode) + 1`. -/
def legacy_fx55 (opcode : Nat) (c : Chip8) : Chip8 :=
  { c with
    memory := (List.range (op_x opcode + 1)).foldl
      (fun m i => upd m (c.I + i) (c.V i % 256)) c.memory,
    I := (c.I + op_x opcode + 1) % 65536 }

/-- Legacy single-file variant (src/chip8.c), `_bF` case 0x65: load V0..Vx
from memory[I..], then `I += op_x(opcode) + 1`. -/
def legacy_fx65 (opcode : Nat) (c : Chip8) : Chip8 :=
  { c with
    V := (List.range (op_x opcode + 1)).foldl
      (fun v i => upd v i (c.memory (c.I + i) % 256)) c.V,
    I := (c.I + op_x opcode + 1) % 65536 }

/-- The memory addresses written by the handler that `execOpcode` dispatches
`op` to (only the BCD store Fx33 and the register dump Fx55 write memory;
because of the switch fall-through they are reached for family 0xF and for
family 0xE opcodes whose low byte is not 9E/A1). -/
def memWriteAddrs (op : Nat) (eml : Emulator) : List Nat :=
  let fam := (op &&& 0xF000) >>> 12
  if (fam = 0xE ∨ fam = 0xF) ∧ op &&& 0xFF = 0x33 then
    [eml.cpu.I, eml.cpu.I + 1, eml.cpu.I + 2]
  else if (fam = 0xE ∨ fam = 0xF) ∧ op &&& 0xFF = 0x55 then
    (List.range (op_x op + 1)).map (fun i => eml.cpu.I + i)
  else []

/-- States reachable by loading a program into the initial machine and
running emulator cycles. -/
inductive Reach : Emulator → Prop where
  | load : ∀ prog : List Nat, prog.length ≤ MEM_SIZE - RESERVED_MEM →
      Reach (emulator_load_program emulator_init prog)
  | step : ∀ e, Reach e → Reach (emulator_cycle e).2

/-! Concrete machine configurations used to settle individual claims. -/

/-- Program for the key-wait scenario: `F00A` (LD V0, K) followed by
`6142` (LD V1, 0x42). -/
def c1prog : List Nat := [0xF0, 0x0A, 0x61, 0x42]

/-- Machine with `c1prog` loaded. -/
def c1e0 : Emulator := emulator_load_program emulator_init c1prog

/-- `c1e0` after the cycle that executes `F00A` with no key latched. -/
def c1e1 : Emulator := (emulator_cycle c1e0).2

/-- `c1e1` after one idle waiting cycle, the key-press event for key 5, and
one further cycle. -/
def c1e3 : Emulator := (emulator_cycle (keypad_pressed (emulator_cycle c1e1).2 5)).2

/-- Program that sets V0 = 0x9D, sets I = 0xFFF, then runs the BCD store
`F033`. -/
def c3prog : List Nat := [0x60, 0x9D, 0xAF, 0xFF, 0xF0, 0x33]

/-- The machine after loading `c3prog` and running two cycles (V0 = 0x9D,
I = 0xFFF, PC at the `F033`). -/
def c3st : Emulator := cycleN 2 (emulator_load_program emulator_init c3prog)

/-- A chain of 17 CALL instructions at 0x200, 0x202, ..., 0x220, each
targeting the next one. -/
def c7prog : List Nat :=
  (List.range 17).flatMap (fun k =>
    [(0x2000 + (0x202 + 2 * k)) / 256, (0x202 + 2 * k) % 256])

/-- Machine with the CALL chain loaded. -/
def c7e0 : Emulator := emulator_load_program emulator_init c7prog

/-- `2300` (CALL 0x300) at 0x200 and `00EE` (RET) at 0x300. -/
def c7crprog : List Nat := [0x23, 0x00] ++ List.replicate 254 0 ++ [0x00, 0xEE]

/-- Machine with the CALL/RET pair loaded. -/
def c7cre : Emulator := emulator_load_program emulator_init c7crprog

/-- Machine with V0 = 10 and V15 = 3. -/
def c5e : Emulator := { emulator_init with cpu := { emulator_init.cpu with
  V := upd (upd emulator_init.cpu.V 0 10) 15 3 } }

/-- Machine with all memory zero (an all-zero 1-row sprite wherever I
points). -/
def c6zero : Emulator := { emulator_init with cpu := { emulator_init.cpu with
  memory := fun _ => 0 } }

/-- Machine for the spec's draw scenario: all-set 8x1 sprite at memory 0x300,
I = 0x300, V0 = 60 (x coordinate), V1 = 0 (y coordinate). -/
def c6spec : Emulator := { emulator_init with cpu := { emulator_init.cpu with
  memory := fun a => if a = 0x300 then 0xFF else 0,
  I := 0x300,
  V := upd emulator_init.cpu.V 0 60 } }

/-- Legacy-variant machine state with I = 100. -/
def c9c : Chip8 := { emulator_init.cpu with I := 100 }

/-- Machine with V15 = 3. -/
def c10e : Emulator := { emulator_init with cpu := { emulator_init.cpu with
  V := upd emulator_init.cpu.V 15 3 } }

/-- Machine with V0 = 100 and V15 = 200. -/
def c10e2 : Emulator := { emulator_init with cpu := { emulator_init.cpu with
  V := upd (upd emulator_init.cpu.V 0 100) 15 200 } }

/-- Machine with `6105` (LD V1, 5) loaded and a breakpoint set at 0x200. -/
def c4e : Emulator := { emulator_load_program emulator_init [0x61, 0x05] with
  brk_point := 0x200, brk_point_set := true }

/-- Machine with `00EE` (RET) loaded and an empty stack. -/
def c8e : Emulator := emulator_load_program emulator_init [0x00, 0xEE]

/-- Dispatch invariants shared by every instruction handler: the handler
preserves the `prev_PC` and breakpoint configuration fields, never reports
`EML_BRK_REACHED` itself, and if it reports a fault status it leaves the
whole emulator state unchanged. -/
def Hprop (r : EmlStat × Emulator) (e : Emulator) : Prop :=
  r.2.prev_PC = e.prev_PC ∧ r.2.brk_point = e.brk_point ∧
  r.2.brk_point_set = e.brk_point_set ∧ r.1 ≠ EML_BRK_REACHED ∧
  ((r.1 = EML_UNK_OPC ∨ r.1 = EML_STACK_OVERFL ∨ r.1 = EML_STACK_UNDERFL) → r.2 = e)

/-! Helper lemmas. -/

theorem and_255_eq_mod (n : Nat) : n &&& 0xFF = n % 256 := by
  have h := Nat.and_pow_two_sub_one_eq_mod n 8
  norm_num at h
  omega

theorem and_15_eq_mod (n : Nat) : n &&& 0xF = n % 16 := by
  have h := Nat.and_pow_two_sub_one_eq_mod n 4
  norm_num at h
  omega

theorem op_x_eq (op : Nat) : op_x op = op / 256 % 16 := by
  unfold op_x
  rw [Nat.shiftRight_eq_div_pow, and_15_eq_mod]

theorem op_y_eq (op : Nat) : op_y op = op / 16 % 16 := by
  unfold op_y
  rw [Nat.shiftRight_eq_div_pow, and_15_eq_mod]

theorem op_x_lt (op : Nat) : op_x op < 16 := by
  rw [op_x_eq]; exact Nat.mod_lt _ (by norm_num)

/-- Reading back an index that a `List.range` fold wrote, provided no later
iteration overwrites it. -/
theorem foldl_upd_read (g : Nat → Nat) (k i : Nat) (idx val : Nat → Nat)
    (hik : i < k) (hinj : ∀ j, i < j → j < k → idx j ≠ idx i) :
    ((List.range k).foldl (fun m j => upd m (idx j) (val j)) g) (idx i) = val i := by
  induction k generalizing g with
  | zero => omega
  | succ k ih =>
    rw [List.range_succ, List.foldl_append]
    simp only [List.foldl_cons, List.foldl_nil]
    rcases Nat.lt_or_ge i k with hik2 | hik2
    · have hne : idx i ≠ idx k :=
        fun h => hinj k hik2 (Nat.lt_succ_self k) h.symm
      simp only [upd, if_neg hne]
      exact ih g hik2 (fun j h1 h2 => hinj j h1 (Nat.lt_succ_of_lt h2))
    · have : i = k := by omega
      subst this
      simp [upd]

/-- A `List.range` fold of pointwise updates leaves untouched indices
unchanged. -/
theorem foldl_upd_frame (g : Nat → Nat) (k a : Nat) (idx val : Nat → Nat)
    (ha : ∀ j, j < k → a ≠ idx j) :
    ((List.range k).foldl (fun m j => upd m (idx j) (val j)) g) a = g a := by
  induction k generalizing g with
  | zero => simp
  | succ k ih =>
    rw [List.range_succ, List.foldl_append]
    simp only [List.foldl_cons, List.foldl_nil]
    simp only [upd, if_neg (ha k (Nat.lt_succ_self k))]
    exact ih g (fun j hj => ha j (Nat.lt_succ_of_lt hj))

set_option maxHeartbeats 1000000

theorem instr_CLS_h (op : Nat) (e : Emulator) : Hprop (instr_CLS op e) e := by
  simp [Hprop, instr_CLS]

theorem instr_JP_nnn_h (op : Nat) (e : Emulator) : Hprop (instr_JP_nnn op e) e := by
  simp [Hprop, instr_JP_nnn]

theorem instr_LD_Vx_kk_h (op : Nat) (e : Emulator) : Hprop (instr_LD_Vx_kk op e) e := by
  simp [Hprop, instr_LD_Vx_kk]

theorem instr_ADD_Vx_kk_h (op : Nat) (e : Emulator) : Hprop (instr_ADD_Vx_kk op e) e := by
  simp [Hprop, instr_ADD_Vx_kk]

theorem instr_LD_Vx_Vy_h (op : Nat) (e : Emulator) : Hprop (instr_LD_Vx_Vy op e) e := by
  simp [Hprop, instr_LD_Vx_Vy]

theorem instr_OR_Vx_Vy_h (op : Nat) (e : Emulator) : Hprop (instr_OR_Vx_Vy op e) e := by
  simp [Hprop, instr_OR_Vx_Vy]

theorem instr_AND_Vx_Vy_h (op : Nat) (e : Emulator) : Hprop (instr_AND_Vx_Vy op e) e := by
  simp [Hprop, instr_AND_Vx_Vy]

theorem instr_XOR_Vx_Vy_h (op : Nat) (e : Emulator) : Hprop (instr_XOR_Vx_Vy op e) e := by
  simp [Hprop, instr_XOR_Vx_Vy]

theorem instr_ADD_Vx_Vy_h (op : Nat) (e : Emulator) : Hprop (instr_ADD_Vx_Vy op e) e := by
  simp [Hprop, instr_ADD_Vx_Vy]

theorem instr_SUB_Vx_Vy_h (op : Nat) (e : Emulator) : Hprop (instr_SUB_Vx_Vy op e) e := by
  simp [Hprop, instr_SUB_Vx_Vy]

theorem instr_SHR_Vx__Vy_h (op : Nat) (e : Emulator) : Hprop (instr_SHR_Vx__Vy op e) e := by
  simp [Hprop, instr_SHR_Vx__Vy]

theorem instr_SUBN_Vx_Vy_h (op : Nat) (e : Emulator) : Hprop (instr_SUBN_Vx_Vy op e) e := by
  simp [Hprop, instr_SUBN_Vx_Vy]

theorem instr_SHL_Vx_Vy_h (op : Nat) (e : Emulator) : Hprop (instr_SHL_Vx_Vy op e) e := by
  simp [Hprop, instr_SHL_Vx_Vy]

theorem instr_LD_I_nnn_h (op : Nat) (e : Emulator) : Hprop (instr_LD_I_nnn op e) e := by
  simp [Hprop, instr_LD_I_nnn]

theorem instr_JP_V0_nnn_h (op : Nat) (e : Emulator) : Hprop (instr_JP_V0_nnn op e) e := by
  simp [Hprop, instr_JP_V0_nnn]

theorem instr_RND_Vx_kk_h (op : Nat) (e : Emulator) : Hprop (instr_RND_Vx_kk op e) e := by
  simp [Hprop, instr_RND_Vx_kk]

theorem instr_DRW_Vx_Vy_n_h (op : Nat) (e : Emulator) : Hprop (instr_DRW_Vx_Vy_n op e) e := by
  simp [Hprop, instr_DRW_Vx_Vy_n]

theorem instr_LD_Vx_DT_h (op : Nat) (e : Emulator) : Hprop (instr_LD_Vx_DT op e) e := by
  simp [Hprop, instr_LD_Vx_DT]

theorem instr_LD_DT_Vx_h (op : Nat) (e : Emulator) : Hprop (instr_LD_DT_Vx op e) e := by
  simp [Hprop, instr_LD_DT_Vx]

theorem instr_LD_ST_Vx_h (op : Nat) (e : Emulator) : Hprop (instr_LD_ST_Vx op e) e := by
  simp [Hprop, instr_LD_ST_Vx]

theorem instr_ADD_I_Vx_h (op : Nat) (e : Emulator) : Hprop (instr_ADD_I_Vx op e) e := by
  simp [Hprop, instr_ADD_I_Vx]

theorem instr_LD_F_Vx_h (op : Nat) (e : Emulator) : Hprop (instr_LD_F_Vx op e) e := by
  simp [Hprop, instr_LD_F_Vx]

theorem instr_LD_B_Vx_h (op : Nat) (e : Emulator) : Hprop (instr_LD_B_Vx op e) e := by
  simp [Hprop, instr_LD_B_Vx]

theorem instr_LD_I_Vx_multi_h (op : Nat) (e : Emulator) : Hprop (instr_LD_I_Vx_multi op e) e := by
  simp [Hprop, instr_LD_I_Vx_multi]

theorem instr_LD_Vx_I_multi_h (op : Nat) (e : Emulator) : Hprop (instr_LD_Vx_I_multi op e) e := by
  simp [Hprop, instr_LD_Vx_I_multi]

theorem instr_RET_h (op : Nat) (e : Emulator) : Hprop (instr_RET op e) e := by
  unfold Hprop instr_RET
  split <;> simp

theorem instr_CALL_nnn_h (op : Nat) (e : Emulator) : Hprop (instr_CALL_nnn op e) e := by
  unfold Hprop instr_CALL_nnn
  split <;> simp

theorem instr_SE_Vx_kk_h (op : Nat) (e : Emulator) : Hprop (instr_SE_Vx_kk op e) e := by
  unfold Hprop instr_SE_Vx_kk
  split <;> simp

theorem instr_SNE_Vx_kk_h (op : Nat) (e : Emulator) : Hprop (instr_SNE_Vx_kk op e) e := by
  unfold Hprop instr_SNE_Vx_kk
  split <;> simp

theorem instr_SE_Vx_Vy_h (op : Nat) (e : Emulator) : Hprop (instr_SE_Vx_Vy op e) e := by
  unfold Hprop instr_SE_Vx_Vy
  split <;> simp

theorem instr_SNE_Vx_Vy_h (op : Nat) (e : Emulator) : Hprop (instr_SNE_Vx_Vy op e) e := by
  unfold Hprop instr_SNE_Vx_Vy
  split <;> simp

theorem instr_SKP_Vx_h (op : Nat) (e : Emulator) : Hprop (instr_SKP_Vx op e) e := by
  unfold Hprop instr_SKP_Vx
  split <;> simp

theorem instr_SKNP_Vx_h (op : Nat) (e : Emulator) : Hprop (instr_SKNP_Vx op e) e := by
  unfold Hprop instr_SKNP_Vx
  split <;> simp

theorem instr_LD_Vx_K_h (op : Nat) (e : Emulator) : Hprop (instr_LD_Vx_K op e) e := by
  unfold Hprop instr_LD_Vx_K
  cases e.last_key <;> simp

theorem execF_h (op : Nat) (e : Emulator) : Hprop (execF op e) e := by
  unfold execF
  split_ifs
  exact instr_LD_Vx_DT_h op e
  exact instr_LD_Vx_K_h op e
  exact instr_LD_DT_Vx_h op e
  exact instr_LD_ST_Vx_h op e
  exact instr_ADD_I_Vx_h op e
  exact instr_LD_F_Vx_h op e
  exact instr_LD_B_Vx_h op e
  exact instr_LD_I_Vx_multi_h op e
  exact instr_LD_Vx_I_multi_h op e
  simp [Hprop]

theorem execFam_h (f op : Nat) (e : Emulator) : Hprop (execFam f op e) e := by
  unfold execFam
  split
  · split_ifs
    exact instr_CLS_h op e
    exact instr_RET_h op e
    exact instr_JP_nnn_h op e
  · exact instr_JP_nnn_h op e
  · exact instr_CALL_nnn_h op e
  · exact instr_SE_Vx_kk_h op e
  · exact instr_SNE_Vx_kk_h op e
  · exact instr_SE_Vx_Vy_h op e
  · exact instr_LD_Vx_kk_h op e
  · exact instr_ADD_Vx_kk_h op e
  · split_ifs
    exact instr_LD_Vx_Vy_h op e
    exact instr_OR_Vx_Vy_h op e
    exact instr_AND_Vx_Vy_h op e
    exact instr_XOR_Vx_Vy_h op e
    exact instr_ADD_Vx_Vy_h op e
    exact instr_SUB_Vx_Vy_h op e
    exact instr_SHR_Vx__Vy_h op e
    exact instr_SUBN_Vx_Vy_h op e
    exact instr_SHL_Vx_Vy_h op e
    exact instr_SNE_Vx_Vy_h op e
  · exact instr_SNE_Vx_Vy_h op e
  · exact instr_LD_I_nnn_h op e
  · exact instr_JP_V0_nnn_h op e
  · exact instr_RND_Vx_kk_h op e
  · exact instr_DRW_Vx_Vy_n_h op e
  · split_ifs
    exact instr_SKP_Vx_h op e
    exact instr_SKNP_Vx_h op e
    exact execF_h op e
  · exact execF_h op e

theorem execOpcode_h (op : Nat) (e : Emulator) : Hprop (execOpcode op e) e :=
  execFam_h ((op &&& 0xF000) >>> 12) op e
theorem instr_CLS_c (op : Nat) (e : Emulator) (b : Bool) :
    instr_CLS op { e with brk_point_set := b } =
    ((instr_CLS op e).1, { (instr_CLS op e).2 with brk_point_set := b }) := rfl

theorem instr_JP_nnn_c (op : Nat) (e : Emulator) (b : Bool) :
    instr_JP_nnn op { e with brk_point_set := b } =
    ((instr_JP_nnn op e).1, { (instr_JP_nnn op e).2 with brk_point_set := b }) := rfl

theorem instr_LD_Vx_kk_c (op : Nat) (e : Emulator) (b : Bool) :
    instr_LD_Vx_kk op { e with brk_point_set := b } =
    ((instr_LD_Vx_kk op e).1, { (instr_LD_Vx_kk op e).2 with brk_point_set := b }) := rfl

theorem instr_ADD_Vx_kk_c (op : Nat) (e : Emulator) (b : Bool) :
    instr_ADD_Vx_kk op { e with brk_point_set := b } =
    ((instr_ADD_Vx_kk op e).1, { (instr_ADD_Vx_kk op e).2 with brk_point_set := b }) := rfl

theorem instr_LD_Vx_Vy_c (op : Nat) (e : Emulator) (b : Bool) :
    instr_LD_Vx_Vy op { e with brk_point_set := b } =
    ((instr_LD_Vx_Vy op e).1, { (instr_LD_Vx_Vy op e).2 with brk_point_set := b }) := rfl

theorem instr_OR_Vx_Vy_c (op : Nat) (e : Emulator) (b : Bool) :
    instr_OR_Vx_Vy op { e with brk_point_set := b } =
    ((instr_OR_Vx_Vy op e).1, { (instr_OR_Vx_Vy op e).2 with brk_point_set := b }) := rfl

theorem instr_AND_Vx_Vy_c (op : Nat) (e : Emulator) (b : Bool) :
    instr_AND_Vx_Vy op { e with brk_point_set := b } =
    ((instr_AND_Vx_Vy op e).1, { (instr_AND_Vx_Vy op e).2 with brk_point_set := b }) := rfl

theorem instr_XOR_Vx_Vy_c (op : Nat) (e : Emulator) (b : Bool) :
    instr_XOR_Vx_Vy op { e with brk_point_set := b } =
    ((instr_XOR_Vx_Vy op e).1, { (instr_XOR_Vx_Vy op e).2 with brk_point_set := b }) := rfl

theorem instr_ADD_Vx_Vy_c (op : Nat) (e : Emulator) (b : Bool) :
    instr_ADD_Vx_Vy op { e with brk_point_set := b } =
    ((instr_ADD_Vx_Vy op e).1, { (instr_ADD_Vx_Vy op e).2 with brk_point_set := b }) := rfl

theorem instr_SUB_Vx_Vy_c (op : Nat) (e : Emulator) (b : Bool) :
    instr_SUB_Vx_Vy op { e with brk_point_set := b } =
    ((instr_SUB_Vx_Vy op e).1, { (instr_SUB_Vx_Vy op e).2 with brk_point_set := b }) := rfl

theorem instr_SHR_Vx__Vy_c (op : Nat) (e : Emulator) (b : Bool) :
    instr_SHR_Vx__Vy op { e with brk_point_set := b } =
    ((instr_SHR_Vx__Vy op e).1, { (instr_SHR_Vx__Vy op e).2 with brk_point_set := b }) := rfl

theorem instr_SUBN_Vx_Vy_c (op : Nat) (e : Emulator) (b : Bool) :
    instr_SUBN_Vx_Vy op { e with brk_point_set := b } =
    ((instr_SUBN_Vx_Vy op e).1, { (instr_SUBN_Vx_Vy op e).2 with brk_point_set := b }) := rfl

theorem instr_SHL_Vx_Vy_c (op : Nat) (e : Emulator) (b : Bool) :
    instr_SHL_Vx_Vy op { e with brk_point_set := b } =
    ((instr_SHL_Vx_Vy op e).1, { (instr_SHL_Vx_Vy op e).2 with brk_point_set := b }) := rfl

theorem instr_LD_I_nnn_c (op : Nat) (e : Emulator) (b : Bool) :
    instr_LD_I_nnn op { e with brk_point_set := b } =
    ((instr_LD_I_nnn op e).1, { (instr_LD_I_nnn op e).2 with brk_point_set := b }) := rfl

theorem instr_JP_V0_nnn_c (op : Nat) (e : Emulator) (b : Bool) :
    instr_JP_V0_nnn op { e with brk_point_set := b } =
    ((instr_JP_V0_nnn op e).1, { (instr_JP_V0_nnn op e).2 with brk_point_set := b }) := rfl

theorem instr_RND_Vx_kk_c (op : Nat) (e : Emulator) (b : Bool) :
    instr_RND_Vx_kk op { e with brk_point_set := b } =
    ((instr_RND_Vx_kk op e).1, { (instr_RND_Vx_kk op e).2 with brk_point_set := b }) := rfl

theorem instr_DRW_Vx_Vy_n_c (op : Nat) (e : Emulator) (b : Bool) :
    instr_DRW_Vx_Vy_n op { e with brk_point_set := b } =
    ((instr_DRW_Vx_Vy_n op e).1, { (instr_DRW_Vx_Vy_n op e).2 with brk_point_set := b }) := rfl

theorem instr_LD_Vx_DT_c (op : Nat) (e : Emulator) (b : Bool) :
    instr_LD_Vx_DT op { e with brk_point_set := b } =
    ((instr_LD_Vx_DT op e).1, { (instr_LD_Vx_DT op e).2 with brk_point_set := b }) := rfl

theorem instr_LD_DT_Vx_c (op : Nat) (e : Emulator) (b : Bool) :
    instr_LD_DT_Vx op { e with brk_point_set := b } =
    ((instr_LD_DT_Vx op e).1, { (instr_LD_DT_Vx op e).2 with brk_point_set := b }) := rfl

theorem instr_LD_ST_Vx_c (op : Nat) (e : Emulator) (b : Bool) :
    instr_LD_ST_Vx op { e with brk_point_set := b } =
    ((instr_LD_ST_Vx op e).1, { (instr_LD_ST_Vx op e).2 with brk_point_set := b }) := rfl

theorem instr_ADD_I_Vx_c (op : Nat) (e : Emulator) (b : Bool) :
    instr_ADD_I_Vx op { e with brk_point_set := b } =
    ((instr_ADD_I_Vx op e).1, { (instr_ADD_I_Vx op e).2 with brk_point_set := b }) := rfl

theorem instr_LD_F_Vx_c (op : Nat) (e : Emulator) (b : Bool) :
    instr_LD_F_Vx op { e with brk_point_set := b } =
    ((instr_LD_F_Vx op e).1, { (instr_LD_F_Vx op e).2 with brk_point_set := b }) := rfl

theorem instr_LD_B_Vx_c (op : Nat) (e : Emulator) (b : Bool) :
    instr_LD_B_Vx op { e with brk_point_set := b } =
    ((instr_LD_B_Vx op e).1, { (instr_LD_B_Vx op e).2 with brk_point_set := b }) := rfl

theorem instr_LD_I_Vx_multi_c (op : Nat) (e : Emulator) (b : Bool) :
    instr_LD_I_Vx_multi op { e with brk_point_set := b } =
    ((instr_LD_I_Vx_multi op e).1, { (instr_LD_I_Vx_multi op e).2 with brk_point_set := b }) := rfl

theorem instr_LD_Vx_I_multi_c (op : Nat) (e : Emulator) (b : Bool) :
    instr_LD_Vx_I_multi op { e with brk_point_set := b } =
    ((instr_LD_Vx_I_multi op e).1, { (instr_LD_Vx_I_multi op e).2 with brk_point_set := b }) := rfl

theorem instr_RET_c (op : Nat) (e : Emulator) (b : Bool) :
    instr_RET op { e with brk_point_set := b } =
    ((instr_RET op e).1, { (instr_RET op e).2 with brk_point_set := b }) := by
  unfold instr_RET
  by_cases hc : e.cpu.SP = 0 <;> simp_all

theorem instr_CALL_nnn_c (op : Nat) (e : Emulator) (b : Bool) :
    instr_CALL_nnn op { e with brk_point_set := b } =
    ((instr_CALL_nnn op e).1, { (instr_CALL_nnn op e).2 with brk_point_set := b }) := by
  unfold instr_CALL_nnn
  by_cases hc : e.cpu.SP = STACK_SIZE <;> simp_all

theorem instr_SE_Vx_kk_c (op : Nat) (e : Emulator) (b : Bool) :
    instr_SE_Vx_kk op { e with brk_point_set := b } =
    ((instr_SE_Vx_kk op e).1, { (instr_SE_Vx_kk op e).2 with brk_point_set := b }) := by
  unfold instr_SE_Vx_kk
  by_cases hc : e.cpu.V (op_x op) = op_kk op <;> simp_all

theorem instr_SNE_Vx_kk_c (op : Nat) (e : Emulator) (b : Bool) :
    instr_SNE_Vx_kk op { e with brk_point_set := b } =
    ((instr_SNE_Vx_kk op e).1, { (instr_SNE_Vx_kk op e).2 with brk_point_set := b }) := by
  unfold instr_SNE_Vx_kk
  by_cases hc : e.cpu.V (op_x op) ≠ op_kk op <;> simp_all

theorem instr_SE_Vx_Vy_c (op : Nat) (e : Emulator) (b : Bool) :
    instr_SE_Vx_Vy op { e with brk_point_set := b } =
    ((instr_SE_Vx_Vy op e).1, { (instr_SE_Vx_Vy op e).2 with brk_point_set := b }) := by
  unfold instr_SE_Vx_Vy
  by_cases hc : e.cpu.V (op_x op) = e.cpu.V (op_y op) <;> simp_all

theorem instr_SNE_Vx_Vy_c (op : Nat) (e : Emulator) (b : Bool) :
    instr_SNE_Vx_Vy op { e with brk_point_set := b } =
    ((instr_SNE_Vx_Vy op e).1, { (instr_SNE_Vx_Vy op e).2 with brk_point_set := b }) := by
  unfold instr_SNE_Vx_Vy
  by_cases hc : e.cpu.V (op_x op) ≠ e.cpu.V (op_y op) <;> simp_all

theorem instr_SKP_Vx_c (op : Nat) (e : Emulator) (b : Bool) :
    instr_SKP_Vx op { e with brk_point_set := b } =
    ((instr_SKP_Vx op e).1, { (instr_SKP_Vx op e).2 with brk_point_set := b }) := by
  have hkp : keypad_is_pressed { e with brk_point_set := b } (e.cpu.V (op_x op)) =
      keypad_is_pressed e (e.cpu.V (op_x op)) := rfl
  unfold instr_SKP_Vx
  by_cases hc : keypad_is_pressed e (e.cpu.V (op_x op)) = true <;> simp_all

theorem instr_SKNP_Vx_c (op : Nat) (e : Emulator) (b : Bool) :
    instr_SKNP_Vx op { e with brk_point_set := b } =
    ((instr_SKNP_Vx op e).1, { (instr_SKNP_Vx op e).2 with brk_point_set := b }) := by
  have hkp : keypad_is_pressed { e with brk_point_set := b } (e.cpu.V (op_x op)) =
      keypad_is_pressed e (e.cpu.V (op_x op)) := rfl
  unfold instr_SKNP_Vx
  by_cases hc : keypad_is_pressed e (e.cpu.V (op_x op)) = true <;> simp_all

theorem instr_LD_Vx_K_c (op : Nat) (e : Emulator) (b : Bool) :
    instr_LD_Vx_K op { e with brk_point_set := b } =
    ((instr_LD_Vx_K op e).1, { (instr_LD_Vx_K op e).2 with brk_point_set := b }) := by
  unfold instr_LD_Vx_K
  cases e.last_key <;> rfl

theorem execF_c (op : Nat) (e : Emulator) (b : Bool) :
    execF op { e with brk_point_set := b } =
    ((execF op e).1, { (execF op e).2 with brk_point_set := b }) := by
  unfold execF
  split_ifs
  exact instr_LD_Vx_DT_c op e b
  exact instr_LD_Vx_K_c op e b
  exact instr_LD_DT_Vx_c op e b
  exact instr_LD_ST_Vx_c op e b
  exact instr_ADD_I_Vx_c op e b
  exact instr_LD_F_Vx_c op e b
  exact instr_LD_B_Vx_c op e b
  exact instr_LD_I_Vx_multi_c op e b
  exact instr_LD_Vx_I_multi_c op e b
  rfl

theorem execFam_c (f op : Nat) (e : Emulator) (b : Bool) :
    execFam f op { e with brk_point_set := b } =
    ((execFam f op e).1, { (execFam f op e).2 with brk_point_set := b }) := by
  unfold execFam
  split
  · split_ifs
    exact instr_CLS_c op e b
    exact instr_RET_c op e b
    exact instr_JP_nnn_c op e b
  · exact instr_JP_nnn_c op e b
  · exact instr_CALL_nnn_c op e b
  · exact instr_SE_Vx_kk_c op e b
  · exact instr_SNE_Vx_kk_c op e b
  · exact instr_SE_Vx_Vy_c op e b
  · exact instr_LD_Vx_kk_c op e b
  · exact instr_ADD_Vx_kk_c op e b
  · split_ifs
    exact instr_LD_Vx_Vy_c op e b
    exact instr_OR_Vx_Vy_c op e b
    exact instr_AND_Vx_Vy_c op e b
    exact instr_XOR_Vx_Vy_c op e b
    exact instr_ADD_Vx_Vy_c op e b
    exact instr_SUB_Vx_Vy_c op e b
    exact instr_SHR_Vx__Vy_c op e b
    exact instr_SUBN_Vx_Vy_c op e b
    exact instr_SHL_Vx_Vy_c op e b
    exact instr_SNE_Vx_Vy_c op e b
  · exact instr_SNE_Vx_Vy_c op e b
  · exact instr_LD_I_nnn_c op e b
  · exact instr_JP_V0_nnn_c op e b
  · exact instr_RND_Vx_kk_c op e b
  · exact instr_DRW_Vx_Vy_n_c op e b
  · split_ifs
    exact instr_SKP_Vx_c op e b
    exact instr_SKNP_Vx_c op e b
    exact execF_c op e b
  · exact execF_c op e b

theorem execOpcode_c (op : Nat) (e : Emulator) (b : Bool) :
    execOpcode op { e with brk_point_set := b } =
    ((execOpcode op e).1, { (execOpcode op e).2 with brk_point_set := b }) :=
  execFam_c ((op &&& 0xF000) >>> 12) op e b

/-! Claim theorems. -/

set_option maxRecDepth 100000

/-- Claim C1 (code bug): executing `Fx0A` with no key latched ADVANCES the
program counter (the cycle engine increments PC before dispatch and
`instr_LD_Vx_K` never rewinds it), the instruction is not re-executed while
waiting, and after the key event the next cycle executes the FOLLOWING
instruction: the key value is never stored in V0 and the latch is not
cleared.  Concretely, with `F00A; 6142` at 0x200 and key 5 pressed while
waiting: PC is 0x202 already after the first cycle, stays there during the
wait, and the post-key cycle runs `6142` (V1 = 0x42) with V0 still 0 and
`last_key` still latched. -/
theorem C1_keywait_pc_advances :
    c1e0.cpu.PC = 0x200 ∧
    (emulator_cycle c1e0).1 = EML_OK ∧
    c1e1.cpu.PC = 0x202 ∧
    c1e1.key_waiting = true ∧
    (emulator_cycle c1e1).1 = EML_OK ∧
    (emulator_cycle c1e1).2.cpu.PC = 0x202 ∧
    (keypad_pressed (emulator_cycle c1e1).2 5).last_key = some 5 ∧
    (keypad_pressed (emulator_cycle c1e1).2 5).key_waiting = false ∧
    c1e3.cpu.V 0 = 0 ∧
    c1e3.cpu.V 1 = 0x42 ∧
    c1e3.cpu.PC = 0x204 ∧
    c1e3.last_key = some 5 := by
  decide

/-- Claim C2 (code bug): the dispatch switch of `emulator_cycle` falls
through for unassigned opcodes instead of reporting `EML_UNK_OPC`: opcode
0x0000 executes `JP 0x000` (status `EML_OK`, PC = 0), opcode 0x8008 executes
`SNE Vx, Vy` (status `EML_OK`), opcode 0xE107 executes the F-family handler
`LD Vx, DT` (status `EML_OK`).  Only an unassigned F-family low byte such as
0xF0FF reaches `endcase` with `EML_UNK_OPC`. -/
theorem C2_unknown_opcode_fallthrough :
    (emulator_cycle (emulator_load_program emulator_init [0x00, 0x00])).1 = EML_OK ∧
    (emulator_cycle (emulator_load_program emulator_init [0x00, 0x00])).2.cpu.PC = 0 ∧
    (emulator_cycle (emulator_load_program emulator_init [0x80, 0x08])).1 = EML_OK ∧
    (emulator_cycle (emulator_load_program emulator_init [0xE1, 0x07])).1 = EML_OK ∧
    (emulator_cycle (emulator_load_program emulator_init [0xF0, 0xFF])).1 = EML_UNK_OPC := by
  decide

/-- Claim C3, counterexample: a reachable state (program `609D; AFFF; F033`,
two cycles run, so I = 0xFFF set by plain `Annn`) in which the BCD store
`Fx33` writes the addresses 0xFFF, 0x1000 and 0x1001 — the last two outside
[0, 4096) — and the next cycle indeed performs the out-of-bounds write. -/
theorem C3_reachable_oob_write :
    Reach c3st ∧
    c3st.cpu.I = 0xFFF ∧
    0x1001 ∈ memWriteAddrs 0xF033 c3st ∧
    ¬(0x1001 < MEM_SIZE) ∧
    (emulator_cycle c3st).1 = EML_OK ∧
    (emulator_cycle c3st).2.cpu.memory 0x1001 = 7 := by
  refine ⟨?_, by decide, by decide, by decide, by decide, by decide⟩
  exact Reach.step _ (Reach.step _ (Reach.load c3prog (by decide)))

/-- Claim C7: starting from an empty stack, the 16 cycles of a CALL chain all
succeed with `EML_OK` and leave SP = 16; the 17th CALL fails with
`EML_STACK_OVERFL`; a RET executed with SP = 0 fails with
`EML_STACK_UNDERFL`; and `CALL 0x300` at 0x200 followed by the matching RET
leaves PC = 0x202, the address of the instruction after the original CALL. -/
theorem C7_stack_discipline :
    c7e0.cpu.SP = 0 ∧
    (∀ k, k < 16 → (emulator_cycle (cycleN k c7e0)).1 = EML_OK) ∧
    (cycleN 16 c7e0).cpu.SP = 16 ∧
    (emulator_cycle (cycleN 16 c7e0)).1 = EML_STACK_OVERFL ∧
    (emulator_cycle c8e).1 = EML_STACK_UNDERFL ∧
    (cycleN 1 c7cre).cpu.PC = 0x300 ∧
    (cycleN 2 c7cre).cpu.PC = 0x202 := by
  decide

/-- Claim C5, counterexample: `8xy5` (SUB) with y = 0xF does not store
`(a - b) mod 256`.  With V0 = 10 and V15 = 3, opcode 0x80F5 first writes the
not-borrow flag 1 into V15 and then computes `V0 - V15` from the UPDATED
V15, storing 9 instead of the claimed (10 - 3) mod 256 = 7. -/
theorem C5_sub_reads_clobbered_flag :
    c5e.cpu.V 0 = 10 ∧ c5e.cpu.V 15 = 3 ∧
    op_x 0x80F5 = 0 ∧ op_y 0x80F5 = 15 ∧
    (instr_SUB_Vx_Vy 0x80F5 c5e).2.cpu.V 15 = 1 ∧
    (instr_SUB_Vx_Vy 0x80F5 c5e).2.cpu.V 0 = 9 ∧
    (10 + 256 - 3) % 256 = 7 ∧
    (9 : Nat) ≠ 7 := by
  decide

/-- Claim C6, counterexample: drawing the same sprite twice at the same
location with unchanged sprite memory does NOT always report a collision on
the second draw: with an all-zero 1-row sprite (memory all zero, opcode
0xD011, coordinates V0 = V1 = 0 which the draws leave untouched) both draws
leave V15 = 0, contradicting the claimed VF = 1 on the second draw. -/
theorem C6_zero_sprite_no_collision :
    (instr_DRW_Vx_Vy_n 0xD011 c6zero).2.cpu.V 15 = 0 ∧
    (instr_DRW_Vx_Vy_n 0xD011 c6zero).2.cpu.V 0 = 0 ∧
    (instr_DRW_Vx_Vy_n 0xD011 c6zero).2.cpu.V 1 = 0 ∧
    (instr_DRW_Vx_Vy_n 0xD011 (instr_DRW_Vx_Vy_n 0xD011 c6zero).2).2.cpu.V 15 = 0 ∧
    (0 : Nat) ≠ 1 := by
  decide

/-- Claim C9, counterexample: the legacy variant `_bF` (src/chip8.c) does
post-increment the address register by x + 1: running its Fx55 and Fx65
cases with x = 3 on a state with I = 100 leaves I = 104, not 100. -/
theorem C9_legacy_postincrements_I :
    c9c.I = 100 ∧ op_x 0xF355 = 3 ∧
    (legacy_fx55 0xF355 c9c).I = 104 ∧
    (legacy_fx65 0xF355 c9c).I = 104 ∧
    (104 : Nat) ≠ 100 := by
  decide

/-- Claim C10, counterexample: when the destination register is V15 the
final V15 after `8xy6` (SHR) and after `8xy5` (SUB) is NOT the shifted
value / arithmetic result: with V15 = 3, opcode 0x8F06 leaves V15 = 0
although 3 >>> 1 = 1; with V15 = 200 and V0 = 100, opcode 0x8F05 leaves
V15 = 157 although (200 - 100) mod 256 = 100 (the subtraction re-reads the
just-written flag). -/
theorem C10_flag_then_result_counterexample :
    op_x 0x8F06 = 15 ∧ c10e.cpu.V 15 = 3 ∧
    (instr_SHR_Vx__Vy 0x8F06 c10e).2.cpu.V 15 = 0 ∧
    (3 : Nat) >>> 1 = 1 ∧ (0 : Nat) ≠ 1 ∧
    op_x 0x8F05 = 15 ∧ c10e2.cpu.V 15 = 200 ∧ c10e2.cpu.V 0 = 100 ∧
    (instr_SUB_Vx_Vy 0x8F05 c10e2).2.cpu.V 15 = 157 ∧
    (200 + 256 - 100) % 256 = 100 ∧ (157 : Nat) ≠ 100 := by
  decide

/-- Claim C8: whenever `emulator_cycle` reports an execution fault raised by
a handler (`EML_UNK_OPC`, `EML_STACK_OVERFL` or `EML_STACK_UNDERFL`), the
returned machine state has PC equal to the faulting instruction's address
plus 2 (PC is advanced before dispatch and a faulting handler never rewinds
it), and no other machine-state component (memory, display, registers, SP,
stack, I, timers) is mutated. -/
theorem C8_fault_pc (e : Emulator)
    (h : (emulator_cycle e).1 = EML_UNK_OPC ∨ (emulator_cycle e).1 = EML_STACK_OVERFL ∨
         (emulator_cycle e).1 = EML_STACK_UNDERFL) :
    (emulator_cycle e).2.cpu.PC = e.cpu.PC + 2 ∧
    (emulator_cycle e).2.cpu.memory = e.cpu.memory ∧
    (emulator_cycle e).2.cpu.display = e.cpu.display ∧
    (emulator_cycle e).2.cpu.V = e.cpu.V ∧
    (emulator_cycle e).2.cpu.SP = e.cpu.SP ∧
    (emulator_cycle e).2.cpu.stack = e.cpu.stack ∧
    (emulator_cycle e).2.cpu.I = e.cpu.I ∧
    (emulator_cycle e).2.cpu.DT = e.cpu.DT ∧
    (emulator_cycle e).2.cpu.ST = e.cpu.ST := by
  by_cases hkw : e.key_waiting = true
  case pos =>
    have hst : (emulator_cycle e).1 = EML_OK := by
      unfold emulator_cycle; rw [if_pos hkw]
    rcases h with h | h | h <;> rw [hst] at h <;> exact absurd h (by decide)
  case neg =>
  by_cases hpc : e.cpu.PC + 1 ≥ MEM_SIZE
  case pos =>
    have hst : (emulator_cycle e).1 = EML_PC_OVERFL := by
      unfold emulator_cycle; rw [if_neg hkw, if_pos hpc]
    rcases h with h | h | h <;> rw [hst] at h <;> exact absurd h (by decide)
  case neg =>
  have hmain : emulator_cycle e =
      (if (execOpcode (fetched e) (preExec e)).2.brk_point_set ∧
          (execOpcode (fetched e) (preExec e)).2.prev_PC =
          (execOpcode (fetched e) (preExec e)).2.brk_point then
        (EML_BRK_REACHED, (execOpcode (fetched e) (preExec e)).2)
      else execOpcode (fetched e) (preExec e)) := by
    unfold emulator_cycle
    rw [if_neg hkw, if_neg hpc]
  obtain ⟨hp1, hp2, hp3, hp4, hp5⟩ := execOpcode_h (fetched e) (preExec e)
  rw [hmain] at h ⊢
  split at h
  case isTrue => rcases h with h | h | h <;> simp at h
  case isFalse hc1 =>
  split
  case isTrue hc2 => exact absurd hc2 hc1
  case isFalse =>
  rw [hp5 h]
  have hP : (e.cpu.PC + 2) % 65536 = e.cpu.PC + 2 := by
    unfold MEM_SIZE at hpc; omega
  simp [preExec, hP]

/-- Claim C4: with a breakpoint configured at the pre-advance PC of a cycle
that runs (not key-waiting, fetch in bounds), `emulator_cycle` returns
`EML_BRK_REACHED` exactly when the breakpoint equals the address of the
instruction just retired (the pre-advance PC, kept in `prev_PC`), and the
machine state is the same as the one produced by the identical cycle with no
breakpoint configured — i.e. as if the instruction fully executed. -/
theorem C4_breakpoint (e : Emulator)
    (hkw : e.key_waiting = false) (hpc : e.cpu.PC + 1 < MEM_SIZE)
    (hbs : e.brk_point_set = true) :
    (e.brk_point = e.cpu.PC → (emulator_cycle e).1 = EML_BRK_REACHED) ∧
    (e.brk_point ≠ e.cpu.PC → (emulator_cycle e).1 ≠ EML_BRK_REACHED) ∧
    (emulator_cycle e).2.cpu = (emulator_cycle { e with brk_point_set := false }).2.cpu := by
  have hkw2 : ¬e.key_waiting = true := by simp [hkw]
  have hpc2 : ¬e.cpu.PC + 1 ≥ MEM_SIZE := by omega
  have hmain : emulator_cycle e =
      (if (execOpcode (fetched e) (preExec e)).2.brk_point_set ∧
          (execOpcode (fetched e) (preExec e)).2.prev_PC =
          (execOpcode (fetched e) (preExec e)).2.brk_point then
        (EML_BRK_REACHED, (execOpcode (fetched e) (preExec e)).2)
      else execOpcode (fetched e) (preExec e)) := by
    unfold emulator_cycle
    rw [if_neg hkw2, if_neg hpc2]
  have hkw3 : ¬({ e with brk_point_set := false } : Emulator).key_waiting = true := hkw2
  have hpc3 : ¬({ e with brk_point_set := false } : Emulator).cpu.PC + 1 ≥ MEM_SIZE := hpc2
  have hmain2 : emulator_cycle { e with brk_point_set := false } =
      (if (execOpcode (fetched { e with brk_point_set := false })
            (preExec { e with brk_point_set := false })).2.brk_point_set ∧
          (execOpcode (fetched { e with brk_point_set := false })
            (preExec { e with brk_point_set := false })).2.prev_PC =
          (execOpcode (fetched { e with brk_point_set := false })
            (preExec { e with brk_point_set := false })).2.brk_point then
        (EML_BRK_REACHED,
         (execOpcode (fetched { e with brk_point_set := false })
           (preExec { e with brk_point_set := false })).2)
      else execOpcode (fetched { e with brk_point_set := false })
        (preExec { e with brk_point_set := false })) := by
    unfold emulator_cycle
    rw [if_neg hkw3, if_neg hpc3]
  have hfe : fetched { e with brk_point_set := false } = fetched e := rfl
  have hpe : preExec { e with brk_point_set := false } =
      { preExec e with brk_point_set := false } := rfl
  obtain ⟨hp1, hp2, hp3, hp4, hp5⟩ := execOpcode_h (fetched e) (preExec e)
  have hcomm := execOpcode_c (fetched e) (preExec e) false
  have hbset : (execOpcode (fetched e) (preExec e)).2.brk_point_set = true := by
    rw [hp3]; exact hbs
  have hprev : (execOpcode (fetched e) (preExec e)).2.prev_PC = e.cpu.PC := hp1
  have hbp : (execOpcode (fetched e) (preExec e)).2.brk_point = e.brk_point := hp2
  refine ⟨?_, ?_, ?_⟩
  · intro hbe
    rw [hmain, if_pos ⟨hbset, by rw [hprev, hbp, hbe]⟩]
  · intro hne hcontra
    rw [hmain] at hcontra
    split at hcontra
    · rename_i hc
      rw [hprev, hbp] at hc
      exact hne hc.2.symm
    · exact hp4 hcontra
  · have hL : (emulator_cycle e).2 = (execOpcode (fetched e) (preExec e)).2 := by
      rw [hmain]; split <;> rfl
    have hR : (emulator_cycle { e with brk_point_set := false }).2 =
        { (execOpcode (fetched e) (preExec e)).2 with brk_point_set := false } := by
      rw [hmain2, hfe, hpe, hcomm, if_neg (by simp)]
    rw [hL, hR]

/-- Witness for C4 at a concrete input: breakpoint at 0x200, instruction
`6105` at 0x200. -/
theorem C4_breakpoint_witness :
    c4e.key_waiting = false ∧ c4e.cpu.PC + 1 < MEM_SIZE ∧ c4e.brk_point_set = true ∧
    c4e.brk_point = c4e.cpu.PC ∧
    ((c4e.brk_point = c4e.cpu.PC → (emulator_cycle c4e).1 = EML_BRK_REACHED) ∧
     (c4e.brk_point ≠ c4e.cpu.PC → (emulator_cycle c4e).1 ≠ EML_BRK_REACHED) ∧
     (emulator_cycle c4e).2.cpu = (emulator_cycle { c4e with brk_point_set := false }).2.cpu) :=
  ⟨by decide, by decide, by decide, by decide,
   C4_breakpoint c4e (by decide) (by decide) (by decide)⟩

/-- Witness for C8 at a concrete input: `00EE` (RET) executed with SP = 0
faults with `EML_STACK_UNDERFL` and the cycle leaves PC = 0x202 with all
other machine state untouched. -/
theorem C8_fault_pc_witness :
    (emulator_cycle c8e).1 = EML_STACK_UNDERFL ∧
    ((emulator_cycle c8e).2.cpu.PC = c8e.cpu.PC + 2 ∧
     (emulator_cycle c8e).2.cpu.memory = c8e.cpu.memory ∧
     (emulator_cycle c8e).2.cpu.display = c8e.cpu.display ∧
     (emulator_cycle c8e).2.cpu.V = c8e.cpu.V ∧
     (emulator_cycle c8e).2.cpu.SP = c8e.cpu.SP ∧
     (emulator_cycle c8e).2.cpu.stack = c8e.cpu.stack ∧
     (emulator_cycle c8e).2.cpu.I = c8e.cpu.I ∧
     (emulator_cycle c8e).2.cpu.DT = c8e.cpu.DT ∧
     (emulator_cycle c8e).2.cpu.ST = c8e.cpu.ST) :=
  ⟨by decide, C8_fault_pc c8e (Or.inr (Or.inr (by decide)))⟩

theorem instr_CLS_m (op : Nat) (e : Emulator) :
    (instr_CLS op e).2.cpu.memory = e.cpu.memory := rfl

theorem instr_JP_nnn_m (op : Nat) (e : Emulator) :
    (instr_JP_nnn op e).2.cpu.memory = e.cpu.memory := rfl

theorem instr_LD_Vx_kk_m (op : Nat) (e : Emulator) :
    (instr_LD_Vx_kk op e).2.cpu.memory = e.cpu.memory := rfl

theorem instr_ADD_Vx_kk_m (op : Nat) (e : Emulator) :
    (instr_ADD_Vx_kk op e).2.cpu.memory = e.cpu.memory := rfl

theorem instr_LD_Vx_Vy_m (op : Nat) (e : Emulator) :
    (instr_LD_Vx_Vy op e).2.cpu.memory = e.cpu.memory := rfl

theorem instr_OR_Vx_Vy_m (op : Nat) (e : Emulator) :
    (instr_OR_Vx_Vy op e).2.cpu.memory = e.cpu.memory := rfl

theorem instr_AND_Vx_Vy_m (op : Nat) (e : Emulator) :
    (instr_AND_Vx_Vy op e).2.cpu.memory = e.cpu.memory := rfl

theorem instr_XOR_Vx_Vy_m (op : Nat) (e : Emulator) :
    (instr_XOR_Vx_Vy op e).2.cpu.memory = e.cpu.memory := rfl

theorem instr_ADD_Vx_Vy_m (op : Nat) (e : Emulator) :
    (instr_ADD_Vx_Vy op e).2.cpu.memory = e.cpu.memory := rfl

theorem instr_SUB_Vx_Vy_m (op : Nat) (e : Emulator) :
    (instr_SUB_Vx_Vy op e).2.cpu.memory = e.cpu.memory := rfl

theorem instr_SHR_Vx__Vy_m (op : Nat) (e : Emulator) :
    (instr_SHR_Vx__Vy op e).2.cpu.memory = e.cpu.memory := rfl

theorem instr_SUBN_Vx_Vy_m (op : Nat) (e : Emulator) :
    (instr_SUBN_Vx_Vy op e).2.cpu.memory = e.cpu.memory := rfl

theorem instr_SHL_Vx_Vy_m (op : Nat) (e : Emulator) :
    (instr_SHL_Vx_Vy op e).2.cpu.memory = e.cpu.memory := rfl

theorem instr_LD_I_nnn_m (op : Nat) (e : Emulator) :
    (instr_LD_I_nnn op e).2.cpu.memory = e.cpu.memory := rfl

theorem instr_JP_V0_nnn_m (op : Nat) (e : Emulator) :
    (instr_JP_V0_nnn op e).2.cpu.memory = e.cpu.memory := rfl

theorem instr_RND_Vx_kk_m (op : Nat) (e : Emulator) :
    (instr_RND_Vx_kk op e).2.cpu.memory = e.cpu.memory := rfl

theorem instr_DRW_Vx_Vy_n_m (op : Nat) (e : Emulator) :
    (instr_DRW_Vx_Vy_n op e).2.cpu.memory = e.cpu.memory := rfl

theorem instr_LD_Vx_DT_m (op : Nat) (e : Emulator) :
    (instr_LD_Vx_DT op e).2.cpu.memory = e.cpu.memory := rfl

theorem instr_LD_DT_Vx_m (op : Nat) (e : Emulator) :
    (instr_LD_DT_Vx op e).2.cpu.memory = e.cpu.memory := rfl

theorem instr_LD_ST_Vx_m (op : Nat) (e : Emulator) :
    (instr_LD_ST_Vx op e).2.cpu.memory = e.cpu.memory := rfl

theorem instr_ADD_I_Vx_m (op : Nat) (e : Emulator) :
    (instr_ADD_I_Vx op e).2.cpu.memory = e.cpu.memory := rfl

theorem instr_LD_F_Vx_m (op : Nat) (e : Emulator) :
    (instr_LD_F_Vx op e).2.cpu.memory = e.cpu.memory := rfl

theorem instr_LD_Vx_I_multi_m (op : Nat) (e : Emulator) :
    (instr_LD_Vx_I_multi op e).2.cpu.memory = e.cpu.memory := rfl

theorem instr_RET_m (op : Nat) (e : Emulator) :
    (instr_RET op e).2.cpu.memory = e.cpu.memory := by
  unfold instr_RET
  split <;> rfl

theorem instr_CALL_nnn_m (op : Nat) (e : Emulator) :
    (instr_CALL_nnn op e).2.cpu.memory = e.cpu.memory := by
  unfold instr_CALL_nnn
  split <;> rfl

theorem instr_SE_Vx_kk_m (op : Nat) (e : Emulator) :
    (instr_SE_Vx_kk op e).2.cpu.memory = e.cpu.memory := by
  unfold instr_SE_Vx_kk
  split <;> rfl

theorem instr_SNE_Vx_kk_m (op : Nat) (e : Emulator) :
    (instr_SNE_Vx_kk op e).2.cpu.memory = e.cpu.memory := by
  unfold instr_SNE_Vx_kk
  split <;> rfl

theorem instr_SE_Vx_Vy_m (op : Nat) (e : Emulator) :
    (instr_SE_Vx_Vy op e).2.cpu.memory = e.cpu.memory := by
  unfold instr_SE_Vx_Vy
  split <;> rfl

theorem instr_SNE_Vx_Vy_m (op : Nat) (e : Emulator) :
    (instr_SNE_Vx_Vy op e).2.cpu.memory = e.cpu.memory := by
  unfold instr_SNE_Vx_Vy
  split <;> rfl

theorem instr_SKP_Vx_m (op : Nat) (e : Emulator) :
    (instr_SKP_Vx op e).2.cpu.memory = e.cpu.memory := by
  unfold instr_SKP_Vx
  split <;> rfl

theorem instr_SKNP_Vx_m (op : Nat) (e : Emulator) :
    (instr_SKNP_Vx op e).2.cpu.memory = e.cpu.memory := by
  unfold instr_SKNP_Vx
  split <;> rfl

theorem instr_LD_Vx_K_m (op : Nat) (e : Emulator) :
    (instr_LD_Vx_K op e).2.cpu.memory = e.cpu.memory := by
  unfold instr_LD_Vx_K
  cases e.last_key <;> rfl

theorem instr_LD_B_Vx_mem_frame (op : Nat) (e : Emulator) (b : Nat)
    (h1 : b ≠ e.cpu.I) (h2 : b ≠ e.cpu.I + 1) (h3 : b ≠ e.cpu.I + 2) :
    (instr_LD_B_Vx op e).2.cpu.memory b = e.cpu.memory b := by
  unfold instr_LD_B_Vx
  simp [upd, h1, h2, h3]

theorem instr_LD_I_Vx_multi_mem_frame (op : Nat) (e : Emulator) (b : Nat)
    (h : ∀ j, j < op_x op + 1 → b ≠ e.cpu.I + j) :
    (instr_LD_I_Vx_multi op e).2.cpu.memory b = e.cpu.memory b := by
  unfold instr_LD_I_Vx_multi
  exact foldl_upd_frame e.cpu.memory (op_x op + 1) b (fun j => e.cpu.I + j)
    (fun j => e.cpu.V j % 256) h

theorem execF_mem_frame (op : Nat) (e : Emulator) (b : Nat)
    (h33 : op &&& 0xFF = 0x33 → b ≠ e.cpu.I ∧ b ≠ e.cpu.I + 1 ∧ b ≠ e.cpu.I + 2)
    (h55 : op &&& 0xFF = 0x55 → ∀ j, j < op_x op + 1 → b ≠ e.cpu.I + j) :
    (execF op e).2.cpu.memory b = e.cpu.memory b := by
  unfold execF
  split_ifs with h1 h2 h3 h4 h5 h6 h7 h8 h9
  · rw [instr_LD_Vx_DT_m]
  · rw [instr_LD_Vx_K_m]
  · rw [instr_LD_DT_Vx_m]
  · rw [instr_LD_ST_Vx_m]
  · rw [instr_ADD_I_Vx_m]
  · rw [instr_LD_F_Vx_m]
  · obtain ⟨g1, g2, g3⟩ := h33 h7
    exact instr_LD_B_Vx_mem_frame op e b g1 g2 g3
  · exact instr_LD_I_Vx_multi_mem_frame op e b (h55 h8)
  · rw [instr_LD_Vx_I_multi_m]
  · rfl

theorem execOpcode_mem_frame (op : Nat) (e : Emulator) (b : Nat)
    (hb : b ∉ memWriteAddrs op e) :
    (execOpcode op e).2.cpu.memory b = e.cpu.memory b := by
  unfold execOpcode
  simp only [memWriteAddrs] at hb
  have hf : (op &&& 0xF000) >>> 12 < 16 := by
    rw [Nat.shiftRight_eq_div_pow]
    have h1 : op &&& 0xF000 ≤ 0xF000 := Nat.and_le_right
    omega
  set f := (op &&& 0xF000) >>> 12 with hfdef
  interval_cases f
  · rw [show execFam 0 op e =
      (if op &&& 0xFF = 0xE0 then instr_CLS op e
       else if op &&& 0xFF = 0xEE then instr_RET op e
       else instr_JP_nnn op e) from rfl]
    split_ifs
    · rw [instr_CLS_m]
    · rw [instr_RET_m]
    · rw [instr_JP_nnn_m]
  · rw [show execFam 1 op e = instr_JP_nnn op e from rfl, instr_JP_nnn_m]
  · rw [show execFam 2 op e = instr_CALL_nnn op e from rfl, instr_CALL_nnn_m]
  · rw [show execFam 3 op e = instr_SE_Vx_kk op e from rfl, instr_SE_Vx_kk_m]
  · rw [show execFam 4 op e = instr_SNE_Vx_kk op e from rfl, instr_SNE_Vx_kk_m]
  · rw [show execFam 5 op e = instr_SE_Vx_Vy op e from rfl, instr_SE_Vx_Vy_m]
  · rw [show execFam 6 op e = instr_LD_Vx_kk op e from rfl, instr_LD_Vx_kk_m]
  · rw [show execFam 7 op e = instr_ADD_Vx_kk op e from rfl, instr_ADD_Vx_kk_m]
  · rw [show execFam 8 op e =
      (if op &&& 0xF = 0x0 then instr_LD_Vx_Vy op e
       else if op &&& 0xF = 0x1 then instr_OR_Vx_Vy op e
       else if op &&& 0xF = 0x2 then instr_AND_Vx_Vy op e
       else if op &&& 0xF = 0x3 then instr_XOR_Vx_Vy op e
       else if op &&& 0xF = 0x4 then instr_ADD_Vx_Vy op e
       else if op &&& 0xF = 0x5 then instr_SUB_Vx_Vy op e
       else if op &&& 0xF = 0x6 then instr_SHR_Vx__Vy op e
       else if op &&& 0xF = 0x7 then instr_SUBN_Vx_Vy op e
       else if op &&& 0xF = 0xE then instr_SHL_Vx_Vy op e
       else instr_SNE_Vx_Vy op e) from rfl]
    split_ifs
    · rw [instr_LD_Vx_Vy_m]
    · rw [instr_OR_Vx_Vy_m]
    · rw [instr_AND_Vx_Vy_m]
    · rw [instr_XOR_Vx_Vy_m]
    · rw [instr_ADD_Vx_Vy_m]
    · rw [instr_SUB_Vx_Vy_m]
    · rw [instr_SHR_Vx__Vy_m]
    · rw [instr_SUBN_Vx_Vy_m]
    · rw [instr_SHL_Vx_Vy_m]
    · rw [instr_SNE_Vx_Vy_m]
  · rw [show execFam 9 op e = instr_SNE_Vx_Vy op e from rfl, instr_SNE_Vx_Vy_m]
  · rw [show execFam 10 op e = instr_LD_I_nnn op e from rfl, instr_LD_I_nnn_m]
  · rw [show execFam 11 op e = instr_JP_V0_nnn op e from rfl, instr_JP_V0_nnn_m]
  · rw [show execFam 12 op e = instr_RND_Vx_kk op e from rfl, instr_RND_Vx_kk_m]
  · rw [show execFam 13 op e = instr_DRW_Vx_Vy_n op e from rfl, instr_DRW_Vx_Vy_n_m]
  · rw [show execFam 14 op e =
      (if op &&& 0xFF = 0x9E then instr_SKP_Vx op e
       else if op &&& 0xFF = 0xA1 then instr_SKNP_Vx op e
       else execF op e) from rfl]
    norm_num at hb
    split_ifs
    · rw [instr_SKP_Vx_m]
    · rw [instr_SKNP_Vx_m]
    · refine execF_mem_frame op e b ?_ ?_
      · intro hkk
        rw [if_pos hkk] at hb
        simp at hb
        exact hb
      · intro hkk j hj
        rw [if_neg (by omega), if_pos hkk] at hb
        simp at hb
        exact fun h => hb j hj h.symm
  · rw [show execFam 15 op e = execF op e from rfl]
    norm_num at hb
    refine execF_mem_frame op e b ?_ ?_
    · intro hkk
      rw [if_pos hkk] at hb
      simp at hb
      exact hb
    · intro hkk j hj
      rw [if_neg (by omega), if_pos hkk] at hb
      simp at hb
      exact fun h => hb j hj h.symm

theorem drawApply_display (l : List (Nat × Nat)) (disp : Nat → Nat) (col idx : Nat) :
    (drawApply l (disp, col)).1 idx = disp idx ^^^ xorMask l idx := by
  induction l generalizing disp col with
  | nil => simp [drawApply, xorMask]
  | cons cb t ih =>
    rw [show drawApply (cb :: t) (disp, col) =
      drawApply t (drawStep (disp, col) cb) from rfl]
    rw [show drawStep (disp, col) cb =
      (upd disp cb.1 (disp cb.1 ^^^ cb.2),
       if disp cb.1 = 1 ∧ cb.2 = 1 then 1 else col) from rfl]
    rw [ih, xorMask]
    by_cases hc : cb.1 = idx
    · subst hc
      simp [upd, Nat.xor_assoc]
    · have hc2 : ¬idx = cb.1 := fun h => hc h.symm
      simp [upd, hc, hc2]

theorem drawApply_collide_stays (l : List (Nat × Nat)) (disp : Nat → Nat) :
    (drawApply l (disp, 1)).2 = 1 := by
  induction l generalizing disp with
  | nil => rfl
  | cons cb t ih =>
    rw [show drawApply (cb :: t) (disp, 1) =
      drawApply t (drawStep (disp, 1) cb) from rfl]
    rw [show drawStep (disp, 1) cb =
      (upd disp cb.1 (disp cb.1 ^^^ cb.2),
       if disp cb.1 = 1 ∧ cb.2 = 1 then 1 else 1) from rfl]
    split <;> exact ih _

theorem drawApply_no_collide (l : List (Nat × Nat)) (disp : Nat → Nat) (col : Nat)
    (hdist : List.Pairwise (fun p q => p.1 ≠ q.1) l)
    (hzero : ∀ cb ∈ l, disp cb.1 = 0) :
    (drawApply l (disp, col)).2 = col := by
  induction l generalizing disp col with
  | nil => rfl
  | cons cb t ih =>
    rw [show drawApply (cb :: t) (disp, col) =
      drawApply t (drawStep (disp, col) cb) from rfl]
    rw [show drawStep (disp, col) cb =
      (upd disp cb.1 (disp cb.1 ^^^ cb.2),
       if disp cb.1 = 1 ∧ cb.2 = 1 then 1 else col) from rfl]
    have h0 : disp cb.1 = 0 := hzero cb (List.mem_cons_self cb t)
    rw [if_neg (by simp [h0])]
    refine ih _ col (List.Pairwise.sublist (List.sublist_cons_self cb t) hdist) ?_
    intro p hp
    have hne : cb.1 ≠ p.1 := (List.pairwise_cons.mp hdist).1 p hp
    have hne2 : ¬p.1 = cb.1 := fun h => hne (Eq.symm h)
    have : upd disp cb.1 (disp cb.1 ^^^ cb.2) p.1 = disp p.1 := by
      simp [upd, hne2]
    rw [this]
    exact hzero p (List.mem_cons_of_mem cb hp)

theorem drawApply_collide_of_match (l : List (Nat × Nat)) (disp : Nat → Nat) (col : Nat)
    (hdist : List.Pairwise (fun p q => p.1 ≠ q.1) l)
    (hmatch : ∀ cb ∈ l, disp cb.1 = cb.2)
    (hone : ∃ cb ∈ l, cb.2 = 1) :
    (drawApply l (disp, col)).2 = 1 := by
  induction l generalizing disp col with
  | nil => simp at hone
  | cons cb t ih =>
    rw [show drawApply (cb :: t) (disp, col) =
      drawApply t (drawStep (disp, col) cb) from rfl]
    rw [show drawStep (disp, col) cb =
      (upd disp cb.1 (disp cb.1 ^^^ cb.2),
       if disp cb.1 = 1 ∧ cb.2 = 1 then 1 else col) from rfl]
    have hd : disp cb.1 = cb.2 := hmatch cb (List.mem_cons_self cb t)
    by_cases hb : cb.2 = 1
    · rw [if_pos ⟨by rw [hd, hb], hb⟩]
      exact drawApply_collide_stays t _
    · rw [if_neg (by rw [hd]; exact fun hcon => hb hcon.2)]
      have hone2 : ∃ p ∈ t, p.2 = 1 := by
        rcases hone with ⟨p, hp, hp1⟩
        rcases List.mem_cons.mp hp with he | ht
        · exact absurd (he ▸ hp1) hb
        · exact ⟨p, ht, hp1⟩
      refine ih _ col (List.Pairwise.sublist (List.sublist_cons_self cb t) hdist) ?_ hone2
      intro p hp
      have hne : cb.1 ≠ p.1 := (List.pairwise_cons.mp hdist).1 p hp
      have hne2 : ¬p.1 = cb.1 := fun h => hne (Eq.symm h)
      have : upd disp cb.1 (disp cb.1 ^^^ cb.2) p.1 = disp p.1 := by
        simp [upd, hne2]
      rw [this]
      exact hmatch p (List.mem_cons_of_mem cb hp)

theorem xorMask_zero (l : List (Nat × Nat)) (c : Nat)
    (h : ∀ cb ∈ l, cb.1 ≠ c) : xorMask l c = 0 := by
  induction l with
  | nil => rfl
  | cons cb t ih =>
    rw [xorMask, if_neg (h cb (List.mem_cons_self cb t)),
      ih (fun p hp => h p (List.mem_cons_of_mem cb hp))]
    rfl

theorem xorMask_of_unique (l : List (Nat × Nat)) (c bv : Nat)
    (hdist : List.Pairwise (fun p q => p.1 ≠ q.1) l)
    (hmem : (c, bv) ∈ l) : xorMask l c = bv := by
  induction l with
  | nil => simp at hmem
  | cons cb t ih =>
    rcases List.mem_cons.mp hmem with he | ht
    · rw [xorMask, if_pos (by rw [← he]), ← he]
      rw [xorMask_zero t c ?_]
      · exact Nat.xor_zero bv
      · intro p hp
        have := (List.pairwise_cons.mp hdist).1 p hp
        rw [← he] at this
        exact fun hc => this hc.symm
    · have hne : cb.1 ≠ c := by
        have := (List.pairwise_cons.mp hdist).1 (c, bv) ht
        exact this
      rw [xorMask, if_neg hne, ih (List.pairwise_cons.mp hdist).2 ht, Nat.zero_xor]

theorem drawList_cells_pairwise (mem : Nat → Nat) (I x y n : Nat) (hn : n ≤ 32) :
    List.Pairwise (fun p q => p.1 ≠ q.1) (drawList mem I n x y) := by
  unfold drawList
  rw [List.pairwise_map]
  have hnd : (List.product (List.range n) (List.range 8)).Nodup :=
    List.Nodup.product (List.nodup_range n) (List.nodup_range 8)
  refine hnd.imp_of_mem ?_
  intro p q hp hq hne hceq
  apply hne
  obtain ⟨hp1, hp2⟩ := List.mem_product.mp hp
  obtain ⟨hq1, hq2⟩ := List.mem_product.mp hq
  rw [List.mem_range] at hp1 hp2 hq1 hq2
  have hrow : (p.1 + y) % DISP_H = (q.1 + y) % DISP_H ∧
      (x + p.2) % DISP_W = (x + q.2) % DISP_W := by
    have hcw : (x + p.2) % DISP_W < DISP_W := Nat.mod_lt _ (by norm_num [DISP_W])
    have hcw2 : (x + q.2) % DISP_W < DISP_W := Nat.mod_lt _ (by norm_num [DISP_W])
    unfold DISP_W DISP_H at *
    omega
  have h1 : p.1 = q.1 := by
    have := hrow.1
    unfold DISP_H at this
    omega
  have h2 : p.2 = q.2 := by
    have := hrow.2
    unfold DISP_W at this
    omega
  exact Prod.ext h1 h2

theorem drawList_mem (mem : Nat → Nat) (I x y n i j : Nat) (hi : i < n) (hj : j < 8) :
    (((i + y) % DISP_H) * DISP_W + (x + j) % DISP_W,
     (mem (I + i) >>> (7 - j)) &&& 0x1) ∈ drawList mem I n x y := by
  unfold drawList
  rw [List.mem_map]
  exact ⟨(i, j), List.mem_product.mpr
    ⟨List.mem_range.mpr hi, List.mem_range.mpr hj⟩, rfl⟩

/-- Claim C6, amended: `Dxyn` XORs each sprite pixel onto the display at the
per-pixel wrapped cell `((i + y) mod 32) * 64 + (x + j) mod 64` (shown here
over an empty background: after one draw each such cell holds exactly its
sprite bit); drawing the same sprite twice at the same location (the
coordinate registers read back unchanged) with unchanged sprite memory
restores every display pixel to its prior value; over an empty background
the first draw reports V15 = 0 and the second reports the collision V15 = 1
PROVIDED the sprite has at least one set bit in its n rows (an all-zero
sprite reports 0 both times, see the counterexample). -/
theorem C6_draw_xor_wrap_restore (op : Nat) (e : Emulator)
    (hvx : (instr_DRW_Vx_Vy_n op e).2.cpu.V (op_x op) = e.cpu.V (op_x op))
    (hvy : (instr_DRW_Vx_Vy_n op e).2.cpu.V (op_y op) = e.cpu.V (op_y op))
    (hemp : ∀ idx, e.cpu.display idx = 0)
    (hbit : ∃ i j, i < (op &&& 0xF) ∧ j < 8 ∧
      (e.cpu.memory (e.cpu.I + i) >>> (7 - j)) &&& 0x1 = 1) :
    (∀ idx, (instr_DRW_Vx_Vy_n op (instr_DRW_Vx_Vy_n op e).2).2.cpu.display idx
        = e.cpu.display idx) ∧
    (∀ i j, i < (op &&& 0xF) → j < 8 →
      (instr_DRW_Vx_Vy_n op e).2.cpu.display
        (((i + e.cpu.V (op_y op)) % DISP_H) * DISP_W +
         (e.cpu.V (op_x op) + j) % DISP_W)
        = (e.cpu.memory (e.cpu.I + i) >>> (7 - j)) &&& 0x1) ∧
    (instr_DRW_Vx_Vy_n op e).2.cpu.V 0xF = 0 ∧
    (instr_DRW_Vx_Vy_n op (instr_DRW_Vx_Vy_n op e).2).2.cpu.V 0xF = 1 := by
  have hn : op &&& 0xF ≤ 32 := le_trans Nat.and_le_right (by norm_num)
  have hdist := drawList_cells_pairwise e.cpu.memory e.cpu.I
    (e.cpu.V (op_x op)) (e.cpu.V (op_y op)) (op &&& 0xF) hn
  have hs1d : (instr_DRW_Vx_Vy_n op e).2.cpu.display =
      (drawApply (drawList e.cpu.memory e.cpu.I (op &&& 0xF)
        (e.cpu.V (op_x op)) (e.cpu.V (op_y op))) (e.cpu.display, 0)).1 := rfl
  have hl2 : drawList (instr_DRW_Vx_Vy_n op e).2.cpu.memory
      (instr_DRW_Vx_Vy_n op e).2.cpu.I (op &&& 0xF)
      ((instr_DRW_Vx_Vy_n op e).2.cpu.V (op_x op))
      ((instr_DRW_Vx_Vy_n op e).2.cpu.V (op_y op)) =
      drawList e.cpu.memory e.cpu.I (op &&& 0xF)
        (e.cpu.V (op_x op)) (e.cpu.V (op_y op)) := by
    rw [hvx, hvy]
    rfl

  have hs2d : (instr_DRW_Vx_Vy_n op (instr_DRW_Vx_Vy_n op e).2).2.cpu.display =
      (drawApply (drawList e.cpu.memory e.cpu.I (op &&& 0xF)
        (e.cpu.V (op_x op)) (e.cpu.V (op_y op)))
        ((instr_DRW_Vx_Vy_n op e).2.cpu.display, 0)).1 := by
    rw [show (instr_DRW_Vx_Vy_n op (instr_DRW_Vx_Vy_n op e).2).2.cpu.display =
      (drawApply (drawList (instr_DRW_Vx_Vy_n op e).2.cpu.memory
        (instr_DRW_Vx_Vy_n op e).2.cpu.I (op &&& 0xF)
        ((instr_DRW_Vx_Vy_n op e).2.cpu.V (op_x op))
        ((instr_DRW_Vx_Vy_n op e).2.cpu.V (op_y op)))
        ((instr_DRW_Vx_Vy_n op e).2.cpu.display, 0)).1 from rfl, hl2]
  have hmatch : ∀ cb ∈ drawList e.cpu.memory e.cpu.I (op &&& 0xF)
      (e.cpu.V (op_x op)) (e.cpu.V (op_y op)),
      (instr_DRW_Vx_Vy_n op e).2.cpu.display cb.1 = cb.2 := by
    intro cb hcb
    rw [hs1d, drawApply_display, hemp, Nat.zero_xor]
    exact xorMask_of_unique _ cb.1 cb.2 hdist (by rw [Prod.mk.eta]; exact hcb)
  refine ⟨?_, ?_, ?_, ?_⟩
  · intro idx
    rw [hs2d, drawApply_display, hs1d, drawApply_display, Nat.xor_assoc,
      Nat.xor_self, Nat.xor_zero]
  · intro i j hi hj
    exact hmatch _ (drawList_mem e.cpu.memory e.cpu.I
      (e.cpu.V (op_x op)) (e.cpu.V (op_y op)) (op &&& 0xF) i j hi hj)
  · rw [show (instr_DRW_Vx_Vy_n op e).2.cpu.V 0xF =
      (drawApply (drawList e.cpu.memory e.cpu.I (op &&& 0xF)
        (e.cpu.V (op_x op)) (e.cpu.V (op_y op))) (e.cpu.display, 0)).2 % 256 from
      by simp [instr_DRW_Vx_Vy_n, upd]]
    rw [drawApply_no_collide _ _ _ hdist (fun cb _ => hemp cb.1)]
  · rw [show (instr_DRW_Vx_Vy_n op (instr_DRW_Vx_Vy_n op e).2).2.cpu.V 0xF =
      (drawApply (drawList (instr_DRW_Vx_Vy_n op e).2.cpu.memory
        (instr_DRW_Vx_Vy_n op e).2.cpu.I (op &&& 0xF)
        ((instr_DRW_Vx_Vy_n op e).2.cpu.V (op_x op))
        ((instr_DRW_Vx_Vy_n op e).2.cpu.V (op_y op)))
        ((instr_DRW_Vx_Vy_n op e).2.cpu.display, 0)).2 % 256 from
      by simp [instr_DRW_Vx_Vy_n, upd]]
    rw [hl2]
    rw [drawApply_collide_of_match _ _ _ hdist hmatch ?_]
    rcases hbit with ⟨i, j, hi, hj, hb⟩
    refine ⟨(((i + e.cpu.V (op_y op)) % DISP_H) * DISP_W +
      (e.cpu.V (op_x op) + j) % DISP_W,
      (e.cpu.memory (e.cpu.I + i) >>> (7 - j)) &&& 0x1), ?_, hb⟩
    exact drawList_mem e.cpu.memory e.cpu.I
      (e.cpu.V (op_x op)) (e.cpu.V (op_y op)) (op &&& 0xF) i j hi hj

/-- Claim C5, amended: for 8-bit values a (in Vx) and b (in Vy), `8xy4`
stores (a + b) mod 256 into Vx and sets VF = 1 iff a + b > 255, and `8xy5`
stores (a - b) mod 256 into Vx and sets VF = 1 iff a > b — PROVIDED the
register indices avoid the flag register: x ≠ 0xF (ADD and SUB) and y ≠ 0xF
(SUB), because the handlers write VF before the result store and SUB re-reads
the register file afterwards (see the counterexample and claim C10). -/
theorem C5_add_sub_flags (op : Nat) (e : Emulator) (a b : Nat)
    (hx : op_x op ≠ 0xF) (hy : op_y op ≠ 0xF)
    (ha : e.cpu.V (op_x op) = a) (hb : e.cpu.V (op_y op) = b)
    (ha2 : a < 256) (hb2 : b < 256) :
    (instr_ADD_Vx_Vy op e).2.cpu.V (op_x op) = (a + b) % 256 ∧
    (instr_ADD_Vx_Vy op e).2.cpu.V 0xF = (if a + b > 255 then 1 else 0) ∧
    (instr_SUB_Vx_Vy op e).2.cpu.V (op_x op) = (a + 256 - b) % 256 ∧
    (instr_SUB_Vx_Vy op e).2.cpu.V 0xF = (if a > b then 1 else 0) := by
  have hx2 : ¬(0xF : Nat) = op_x op := fun h => hx h.symm
  have hy2 : ¬op_y op = (0xF : Nat) := hy
  have hs : (e.cpu.V (op_x op) + e.cpu.V (op_y op)) % 65536 = a + b := by
    rw [ha, hb]; omega
  refine ⟨?_, ?_, ?_, ?_⟩
  · rw [show (instr_ADD_Vx_Vy op e).2.cpu.V (op_x op) =
      upd (upd e.cpu.V 0xF
        (if (e.cpu.V (op_x op) + e.cpu.V (op_y op)) % 65536 > 0xFF then 1 else 0))
        (op_x op) (((e.cpu.V (op_x op) + e.cpu.V (op_y op)) % 65536) &&& 0xFF)
        (op_x op) from rfl]
    simp [upd, hs, and_255_eq_mod]
  · rw [show (instr_ADD_Vx_Vy op e).2.cpu.V 0xF =
      upd (upd e.cpu.V 0xF
        (if (e.cpu.V (op_x op) + e.cpu.V (op_y op)) % 65536 > 0xFF then 1 else 0))
        (op_x op) (((e.cpu.V (op_x op) + e.cpu.V (op_y op)) % 65536) &&& 0xFF)
        0xF from rfl]
    simp [upd, hx2, hs]
  · rw [show (instr_SUB_Vx_Vy op e).2.cpu.V (op_x op) =
      upd (upd e.cpu.V 0xF
        (if e.cpu.V (op_x op) > e.cpu.V (op_y op) then 1 else 0))
        (op_x op)
        ((upd e.cpu.V 0xF
          (if e.cpu.V (op_x op) > e.cpu.V (op_y op) then 1 else 0) (op_x op) + 256 -
         upd e.cpu.V 0xF
          (if e.cpu.V (op_x op) > e.cpu.V (op_y op) then 1 else 0) (op_y op) % 256) % 256)
        (op_x op) from rfl]
    simp [upd, hx, hy2, ha, hb]
    omega
  · rw [show (instr_SUB_Vx_Vy op e).2.cpu.V 0xF =
      upd (upd e.cpu.V 0xF
        (if e.cpu.V (op_x op) > e.cpu.V (op_y op) then 1 else 0))
        (op_x op)
        ((upd e.cpu.V 0xF
          (if e.cpu.V (op_x op) > e.cpu.V (op_y op) then 1 else 0) (op_x op) + 256 -
         upd e.cpu.V 0xF
          (if e.cpu.V (op_x op) > e.cpu.V (op_y op) then 1 else 0) (op_y op) % 256) % 256)
        0xF from rfl]
    simp [upd, hx2, ha, hb]

/-- Claim C10, amended: when the destination register index x equals 0xF the
flag is written to V[0xF] first and the result store then targets (and for
SUB/SUBN/SHR/SHL also re-reads) the same register.  Hence after `8xF4` the
final V[0xF] is (a + b) mod 256 (the sum was precomputed), but after `8Fy5`
it is (borrow-flag + 256 - b) mod 256, after `8Fy7` it is
(b + 256 - borrow-flag) mod 256, after `8F?6` it is 0, and after `8F?E` it
is twice the high bit of a — not the documented flag, and for
SUB/SUBN/SHR/SHL not the arithmetic result/shifted value either. -/
theorem C10_flag_destination (op : Nat) (e : Emulator) (a b : Nat)
    (hx : op_x op = 0xF) (hy : op_y op ≠ 0xF)
    (ha : e.cpu.V 0xF = a) (hb : e.cpu.V (op_y op) = b)
    (ha2 : a < 256) (hb2 : b < 256) :
    (instr_ADD_Vx_Vy op e).2.cpu.V 0xF = (a + b) % 256 ∧
    (instr_SUB_Vx_Vy op e).2.cpu.V 0xF = ((if a > b then 1 else 0) + 256 - b) % 256 ∧
    (instr_SUBN_Vx_Vy op e).2.cpu.V 0xF = (b + 256 - (if a < b then 1 else 0)) % 256 ∧
    (instr_SHR_Vx__Vy op e).2.cpu.V 0xF = 0 ∧
    (instr_SHL_Vx_Vy op e).2.cpu.V 0xF = ((a &&& 0x80) >>> 7) <<< 1 := by
  have hy2 : ¬op_y op = (0xF : Nat) := hy
  have hs : (e.cpu.V (op_x op) + e.cpu.V (op_y op)) % 65536 = a + b := by
    rw [hx, ha, hb]; omega
  refine ⟨?_, ?_, ?_, ?_, ?_⟩
  · rw [show (instr_ADD_Vx_Vy op e).2.cpu.V 0xF =
      upd (upd e.cpu.V 0xF
        (if (e.cpu.V (op_x op) + e.cpu.V (op_y op)) % 65536 > 0xFF then 1 else 0))
        (op_x op) (((e.cpu.V (op_x op) + e.cpu.V (op_y op)) % 65536) &&& 0xFF)
        0xF from rfl]
    simp [upd, hx, hs, and_255_eq_mod]
    rw [ha, hb]
    omega
  · rw [show (instr_SUB_Vx_Vy op e).2.cpu.V 0xF =
      upd (upd e.cpu.V 0xF
        (if e.cpu.V (op_x op) > e.cpu.V (op_y op) then 1 else 0))
        (op_x op)
        ((upd e.cpu.V 0xF
          (if e.cpu.V (op_x op) > e.cpu.V (op_y op) then 1 else 0) (op_x op) + 256 -
         upd e.cpu.V 0xF
          (if e.cpu.V (op_x op) > e.cpu.V (op_y op) then 1 else 0) (op_y op) % 256) % 256)
        0xF from rfl]
    simp [upd, hx, hy2, ha, hb]
    rw [Nat.mod_eq_of_lt hb2]
  · rw [show (instr_SUBN_Vx_Vy op e).2.cpu.V 0xF =
      upd (upd e.cpu.V 0xF
        (if e.cpu.V (op_x op) < e.cpu.V (op_y op) then 1 else 0))
        (op_x op)
        ((upd e.cpu.V 0xF
          (if e.cpu.V (op_x op) < e.cpu.V (op_y op) then 1 else 0) (op_y op) + 256 -
         upd e.cpu.V 0xF
          (if e.cpu.V (op_x op) < e.cpu.V (op_y op) then 1 else 0) (op_x op) % 256) % 256)
        0xF from rfl]
    simp [upd, hx, hy2, ha, hb]
    split <;> simp
  · rw [show (instr_SHR_Vx__Vy op e).2.cpu.V 0xF =
      upd (upd e.cpu.V 0xF (e.cpu.V (op_x op) &&& 0x01))
        (op_x op)
        (upd e.cpu.V 0xF (e.cpu.V (op_x op) &&& 0x01) (op_x op) >>> 1)
        0xF from rfl]
    simp [upd, hx, ha]
    rw [Nat.shiftRight_eq_div_pow]
    have e2 : (2 : Nat) ^ 1 = 2 := rfl
    rw [e2]
    omega
  · rw [show (instr_SHL_Vx_Vy op e).2.cpu.V 0xF =
      upd (upd e.cpu.V 0xF ((e.cpu.V (op_x op) &&& 0x80) >>> 7))
        (op_x op)
        ((upd e.cpu.V 0xF ((e.cpu.V (op_x op) &&& 0x80) >>> 7) (op_x op) <<< 1) % 256)
        0xF from rfl]
    have h80 : a &&& 0x80 ≤ 0x80 := Nat.and_le_right
    have hlt : ((a &&& 0x80) >>> 7) <<< 1 < 256 := by
      rw [Nat.shiftRight_eq_div_pow, Nat.shiftLeft_eq]
      have e1 : (2 : Nat) ^ 7 = 128 := rfl
      have e2 : (2 : Nat) ^ 1 = 2 := rfl
      rw [e1, e2]
      omega
    simp [upd, hx, ha, Nat.mod_eq_of_lt hlt]

/-- Claim C9, amended: `Fx55` writes V[0..x] into memory[I..I+x] and `Fx65`
loads memory[I..I+x] into V[0..x] (registers above Vx unchanged); memory
outside [I, I+x] is unchanged by Fx55; PC, SP, the stack, the display and
both timers are unchanged by both.  The emulator-variant handlers leave the
address register I unchanged, while the legacy variant `_bF` (src/chip8.c)
post-increments I by x + 1 in both instructions (see the counterexample). -/
theorem C9_regdump_load (op : Nat) (e : Emulator) (i a r : Nat)
    (hi : i < op_x op + 1) (hr : op_x op < r)
    (ha : a < e.cpu.I ∨ e.cpu.I + op_x op < a) :
    ((instr_LD_I_Vx_multi op e).2.cpu.memory (e.cpu.I + i) = e.cpu.V i % 256 ∧
     (instr_LD_I_Vx_multi op e).2.cpu.memory a = e.cpu.memory a ∧
     (instr_LD_I_Vx_multi op e).2.cpu.I = e.cpu.I ∧
     (instr_LD_I_Vx_multi op e).2.cpu.V = e.cpu.V ∧
     (instr_LD_I_Vx_multi op e).2.cpu.PC = e.cpu.PC ∧
     (instr_LD_I_Vx_multi op e).2.cpu.SP = e.cpu.SP ∧
     (instr_LD_I_Vx_multi op e).2.cpu.stack = e.cpu.stack ∧
     (instr_LD_I_Vx_multi op e).2.cpu.display = e.cpu.display ∧
     (instr_LD_I_Vx_multi op e).2.cpu.DT = e.cpu.DT ∧
     (instr_LD_I_Vx_multi op e).2.cpu.ST = e.cpu.ST) ∧
    ((instr_LD_Vx_I_multi op e).2.cpu.V i = e.cpu.memory (e.cpu.I + i) % 256 ∧
     (instr_LD_Vx_I_multi op e).2.cpu.V r = e.cpu.V r ∧
     (instr_LD_Vx_I_multi op e).2.cpu.memory = e.cpu.memory ∧
     (instr_LD_Vx_I_multi op e).2.cpu.I = e.cpu.I ∧
     (instr_LD_Vx_I_multi op e).2.cpu.PC = e.cpu.PC ∧
     (instr_LD_Vx_I_multi op e).2.cpu.SP = e.cpu.SP ∧
     (instr_LD_Vx_I_multi op e).2.cpu.stack = e.cpu.stack ∧
     (instr_LD_Vx_I_multi op e).2.cpu.display = e.cpu.display ∧
     (instr_LD_Vx_I_multi op e).2.cpu.DT = e.cpu.DT ∧
     (instr_LD_Vx_I_multi op e).2.cpu.ST = e.cpu.ST) ∧
    ((legacy_fx55 op e.cpu).I = (e.cpu.I + op_x op + 1) % 65536 ∧
     (legacy_fx55 op e.cpu).memory (e.cpu.I + i) = e.cpu.V i % 256 ∧
     (legacy_fx65 op e.cpu).I = (e.cpu.I + op_x op + 1) % 65536 ∧
     (legacy_fx65 op e.cpu).V i = e.cpu.memory (e.cpu.I + i) % 256) := by
  have hinj : ∀ j, i < j → j < op_x op + 1 → e.cpu.I + j ≠ e.cpu.I + i := by
    intro j h1 h2
    omega
  have hfr : ∀ j, j < op_x op + 1 → a ≠ e.cpu.I + j := by
    intro j hj
    omega
  have hinj2 : ∀ j, i < j → j < op_x op + 1 →
      (fun k => k) j ≠ (fun k => k) i := by
    intro j h1 h2
    simp
    omega
  have hfr2 : ∀ j, j < op_x op + 1 → r ≠ (fun k => k) j := by
    intro j hj
    simp
    omega
  refine ⟨⟨?_, ?_, rfl, rfl, rfl, rfl, rfl, rfl, rfl, rfl⟩,
    ⟨?_, ?_, rfl, rfl, rfl, rfl, rfl, rfl, rfl, rfl⟩, ⟨rfl, ?_, rfl, ?_⟩⟩
  · exact foldl_upd_read e.cpu.memory (op_x op + 1) i (fun j => e.cpu.I + j)
      (fun j => e.cpu.V j % 256) hi hinj
  · exact foldl_upd_frame e.cpu.memory (op_x op + 1) a (fun j => e.cpu.I + j)
      (fun j => e.cpu.V j % 256) hfr
  · exact foldl_upd_read e.cpu.V (op_x op + 1) i (fun k => k)
      (fun j => e.cpu.memory (e.cpu.I + j) % 256) hi hinj2
  · exact foldl_upd_frame e.cpu.V (op_x op + 1) r (fun k => k)
      (fun j => e.cpu.memory (e.cpu.I + j) % 256) hfr2
  · exact foldl_upd_read e.cpu.memory (op_x op + 1) i (fun j => e.cpu.I + j)
      (fun j => e.cpu.V j % 256) hi hinj
  · exact foldl_upd_read e.cpu.V (op_x op + 1) i (fun k => k)
      (fun j => e.cpu.memory (e.cpu.I + j) % 256) hi hinj2

/-- Claim C3, amended: the only handlers that write memory are `Fx33` and
`Fx55` (reached also through the E-family fall-through), and their write
addresses — listed by `memWriteAddrs` — lie within [I, I+2] resp. [I, I+x],
so every handler write stays inside [0, 4096) in any state with
I + 15 < 4096, while all other addresses are untouched.  This bound is NOT
an invariant of reachable states: `Annn` alone reaches I = 0xFFF, where
`Fx33` writes 0x1000 and 0x1001 (see the counterexample), and `Fx1E` can
push I further still. -/
theorem C3_write_addrs_bounded (op : Nat) (e : Emulator) (a b : Nat)
    (hI : e.cpu.I + 15 < MEM_SIZE) (ha : a ∈ memWriteAddrs op e)
    (hb : b ∉ memWriteAddrs op e) :
    a < MEM_SIZE ∧ (execOpcode op e).2.cpu.memory b = e.cpu.memory b := by
  refine ⟨?_, execOpcode_mem_frame op e b hb⟩
  unfold memWriteAddrs at ha
  simp only at ha
  split_ifs at ha with h1 h2
  · simp at ha
    unfold MEM_SIZE at *
    rcases ha with h | h | h <;> omega
  · simp [List.mem_map] at ha
    obtain ⟨j, hj, hje⟩ := ha
    have hx := op_x_lt op
    unfold MEM_SIZE at *
    omega
  · simp at ha

theorem C3_write_addrs_bounded_witness :
    emulator_init.cpu.I + 15 < MEM_SIZE ∧
    2 ∈ memWriteAddrs 0xF033 emulator_init ∧
    5 ∉ memWriteAddrs 0xF033 emulator_init ∧
    (2 < MEM_SIZE ∧
     (execOpcode 0xF033 emulator_init).2.cpu.memory 5 = emulator_init.cpu.memory 5) :=
  ⟨by decide, by decide, by decide,
   C3_write_addrs_bounded 0xF033 emulator_init 2 5 (by decide) (by decide) (by decide)⟩

theorem C5_add_sub_flags_witness :
    op_x 0x8015 ≠ 0xF ∧ op_y 0x8015 ≠ 0xF ∧
    c5e.cpu.V (op_x 0x8015) = 10 ∧ c5e.cpu.V (op_y 0x8015) = 0 ∧
    ((instr_ADD_Vx_Vy 0x8015 c5e).2.cpu.V (op_x 0x8015) = (10 + 0) % 256 ∧
     (instr_ADD_Vx_Vy 0x8015 c5e).2.cpu.V 0xF = (if 10 + 0 > 255 then 1 else 0) ∧
     (instr_SUB_Vx_Vy 0x8015 c5e).2.cpu.V (op_x 0x8015) = (10 + 256 - 0) % 256 ∧
     (instr_SUB_Vx_Vy 0x8015 c5e).2.cpu.V 0xF = (if 10 > 0 then 1 else 0)) :=
  ⟨by decide, by decide, by decide, by decide,
   C5_add_sub_flags 0x8015 c5e 10 0 (by decide) (by decide) (by decide) (by decide)
     (by decide) (by decide)⟩

theorem C6_draw_xor_wrap_restore_witness :
    ((instr_DRW_Vx_Vy_n 0xD011 (instr_DRW_Vx_Vy_n 0xD011 c6spec).2).2.cpu.display 0
        = c6spec.cpu.display 0) ∧
    ((instr_DRW_Vx_Vy_n 0xD011 c6spec).2.cpu.display
        (((0 + c6spec.cpu.V (op_y 0xD011)) % DISP_H) * DISP_W +
         (c6spec.cpu.V (op_x 0xD011) + 0) % DISP_W)
      = (c6spec.cpu.memory (c6spec.cpu.I + 0) >>> (7 - 0)) &&& 0x1) ∧
    ((instr_DRW_Vx_Vy_n 0xD011 c6spec).2.cpu.V 0xF = 0) ∧
    ((instr_DRW_Vx_Vy_n 0xD011 (instr_DRW_Vx_Vy_n 0xD011 c6spec).2).2.cpu.V 0xF = 1) := by
  have h := C6_draw_xor_wrap_restore 0xD011 c6spec (by decide) (by decide)
    (fun idx => rfl) ⟨0, 0, by decide, by decide, by decide⟩
  exact ⟨h.1 0, h.2.1 0 0 (by decide) (by decide), h.2.2.1, h.2.2.2⟩

theorem C10_flag_destination_witness :
    op_x 0x8F05 = 0xF ∧ op_y 0x8F05 ≠ 0xF ∧
    c10e2.cpu.V 0xF = 200 ∧ c10e2.cpu.V (op_y 0x8F05) = 100 ∧
    ((instr_ADD_Vx_Vy 0x8F05 c10e2).2.cpu.V 0xF = (200 + 100) % 256 ∧
     (instr_SUB_Vx_Vy 0x8F05 c10e2).2.cpu.V 0xF =
       ((if 200 > 100 then 1 else 0) + 256 - 100) % 256 ∧
     (instr_SUBN_Vx_Vy 0x8F05 c10e2).2.cpu.V 0xF =
       (100 + 256 - (if 200 < 100 then 1 else 0)) % 256 ∧
     (instr_SHR_Vx__Vy 0x8F05 c10e2).2.cpu.V 0xF = 0 ∧
     (instr_SHL_Vx_Vy 0x8F05 c10e2).2.cpu.V 0xF = ((200 &&& 0x80) >>> 7) <<< 1) :=
  ⟨by decide, by decide, by decide, by decide,
   C10_flag_destination 0x8F05 c10e2 200 100 (by decide) (by decide) (by decide)
     (by decide) (by decide) (by decide)⟩

theorem C9_regdump_load_witness :
    1 < op_x 0xF255 + 1 ∧ op_x 0xF255 < 3 ∧
    (100 < emulator_init.cpu.I ∨ emulator_init.cpu.I + op_x 0xF255 < 100) ∧
    (((instr_LD_I_Vx_multi 0xF255 emulator_init).2.cpu.memory (emulator_init.cpu.I + 1)
        = emulator_init.cpu.V 1 % 256) ∧
     (instr_LD_I_Vx_multi 0xF255 emulator_init).2.cpu.I = emulator_init.cpu.I ∧
     (instr_LD_Vx_I_multi 0xF255 emulator_init).2.cpu.I = emulator_init.cpu.I ∧
     (legacy_fx55 0xF255 emulator_init.cpu).I =
       (emulator_init.cpu.I + op_x 0xF255 + 1) % 65536) := by
  have h := C9_regdump_load 0xF255 emulator_init 1 100 3 (by decide) (by decide)
    (by decide)
  exact ⟨by decide, by decide, by decide,
    h.1.1, h.1.2.2.1, h.2.1.2.2.2.1, h.2.2.1⟩
